import Mathlib

/-!
# HumiditySensor: send decision and alarm logic

A shallow embedding of `src/HumiditySensor.cpp`.

* The `double` fields and arguments are values of a type `α` that carries the three primitives
  the code uses on them: `+`, `-` and `<` (with `a > b` read as `b < a`).  Nothing else is assumed
  about `α` in the definitions, so every theorem stated for an arbitrary `α` also covers IEEE
  doubles (rounding, infinities and NaN included).  Theorems that need the laws of exact
  arithmetic say so by asking for a `LinearOrderedAddCommGroup α` (such as `ℚ` or `ℝ`); rounding
  is then outside the statement.
* `valueSendTime`, `UnixTime::get()` and `ALWAYS_SEND_TIMEOUT` are declared in headers that are
  not part of the sources; times are integers and the timeout is a parameter.
* `UnixTime::get()` is read once in the timeout test and once more when a send is recorded; the
  two reads are the parameters `clockCheck` and `clockStamp`.  A caller with one logical
  timestamp `now` per evaluation passes `now` for both.
* `snprintf` with `"%.02f"` is the C library; the formatter of a value is the parameter `fmt`.
  The response is the text `alarmCheck` produces when the buffer is large enough to hold it.
-/

/-- The member variables of the class `HumiditySensor`. -/
structure HumiditySensor (α : Type) where
  valueSendTime : Int
  temperatureDiffMax : α
  temperatureOffset : α
  humidityDiffMax : α
  humidityOffset : α
  temperatureWork : α
  humidityWork : α
  temperatureSent : α
  humiditySent : α
  alarmHighTemperature : α
  alarmLowTemperature : α
  alarmHighHumidity : α
  alarmLowHumidity : α
  alarmHighTemperatureActive : Bool
  alarmLowTemperatureActive : Bool
  alarmHighHumidityActive : Bool
  alarmLowHumidityActive : Bool
  alarmHighTemperatureSent : Bool
  alarmLowTemperatureSent : Bool
  alarmHighHumiditySent : Bool
  alarmLowHumiditySent : Bool
  alarmHystTemperature : α
  alarmHystHumidity : α

namespace HumiditySensor

variable {α : Type}

/-- The three assignments made on every path of `valueTimeToSend` that returns true:
`temperatureSent = temperatureWork; humiditySent = humidityWork;
valueSendTime = UnixTime::get()`. -/
def recordSend (clockStamp : Int) (s : HumiditySensor α) : HumiditySensor α :=
  { s with
    temperatureSent := s.temperatureWork
    humiditySent := s.humidityWork
    valueSendTime := clockStamp }

/-- The first two assignments of `valueTimeToSend`: the working values are the new reading plus
the offsets. -/
def calibrate [Add α] (s : HumiditySensor α) (temperature humidity : α) : HumiditySensor α :=
  { s with
    temperatureWork := temperature + s.temperatureOffset
    humidityWork := humidity + s.humidityOffset }

/-- The function `HumiditySensor::valueTimeToSend`: the returned flag and the sensor afterwards. -/
def valueTimeToSend [Add α] [Sub α] [LT α] [DecidableRel (fun a b : α => a < b)]
    (ALWAYS_SEND_TIMEOUT clockCheck clockStamp : Int)
    (s : HumiditySensor α) (temperature humidity : α) : Bool × HumiditySensor α :=
  let w := calibrate s temperature humidity
  -- Timeout lets send anyway
  if w.valueSendTime = 0 ∨ clockCheck - w.valueSendTime ≥ ALWAYS_SEND_TIMEOUT then
    (true, recordSend clockStamp w)
  -- Check if diff is bigger than diff max
  else if w.temperatureWork > w.temperatureSent ∧
      w.temperatureWork - w.temperatureSent > w.temperatureDiffMax then
    (true, recordSend clockStamp w)
  else if w.humidityWork > w.humiditySent ∧
      w.humidityWork - w.humiditySent > w.humidityDiffMax then
    (true, recordSend clockStamp w)
  -- Check if negative diff is bigger than diff max
  else if w.temperatureWork < w.temperatureSent ∧
      w.temperatureSent - w.temperatureWork > w.temperatureDiffMax then
    (true, recordSend clockStamp w)
  else if w.humidityWork < w.humiditySent ∧
      w.humiditySent - w.humidityWork > w.humidityDiffMax then
    (true, recordSend clockStamp w)
  else
    (false, w)

/-- The function `HumiditySensor::setAlarmLevels`: the four latches are cleared, then the four
levels and the four active flags are stored. -/
def setAlarmLevels (s : HumiditySensor α)
    (highTemperature : α) (highTemperatureActive : Bool)
    (lowTemperature : α) (lowTemperatureActive : Bool)
    (highHumidity : α) (highHumidityActive : Bool)
    (lowHumidity : α) (lowHumidityActive : Bool) : HumiditySensor α :=
  { s with
    alarmHighTemperatureSent := false
    alarmHighHumiditySent := false
    alarmLowTemperatureSent := false
    alarmLowHumiditySent := false
    alarmHighTemperature := highTemperature
    alarmHighTemperatureActive := highTemperatureActive
    alarmHighHumidity := highHumidity
    alarmHighHumidityActive := highHumidityActive
    alarmLowTemperature := lowTemperature
    alarmLowTemperatureActive := lowTemperatureActive
    alarmLowHumidity := lowHumidity
    alarmLowHumidityActive := lowHumidityActive }

/-- The function `HumiditySensor::setAlarmHyst`. -/
def setAlarmHyst (s : HumiditySensor α) (hystTemperature hystHumidity : α) : HumiditySensor α :=
  { s with
    alarmHystTemperature := hystTemperature
    alarmHystHumidity := hystHumidity }

/-- The function `HumiditySensor::setDiffToSend`. -/
def setDiffToSend (s : HumiditySensor α) (temperature humidity : α) : HumiditySensor α :=
  { s with
    temperatureDiffMax := temperature
    humidityDiffMax := humidity }

/-- The function `HumiditySensor::setValueOffset`. -/
def setValueOffset (s : HumiditySensor α) (temperature humidity : α) : HumiditySensor α :=
  { s with
    temperatureOffset := temperature
    humidityOffset := humidity }

/-- The function `HumiditySensor::alarmFailed`. -/
def alarmFailed (s : HumiditySensor α) : HumiditySensor α :=
  { s with
    alarmHighTemperatureSent := false
    alarmLowTemperatureSent := false
    alarmHighHumiditySent := false
    alarmLowHumiditySent := false }

end HumiditySensor

/-- The local variables of `alarmCheck` together with the object: the flag `sendAlarm`, the text
written to `responce` so far, and the sensor. -/
structure AlarmCheck (α : Type) where
  sendAlarm : Bool
  responce : String
  sensor : HumiditySensor α

namespace HumiditySensor

variable {α : Type}

/-- The text of `snprintf(responce, maxSize, " : <label>=%.02f(%.02f)", value, level)`. -/
def clause (fmt : α → String) (label : String) (value level : α) : String :=
  " : " ++ label ++ "=" ++ fmt value ++ "(" ++ fmt level ++ ")"

/-- The block of `alarmCheck` under the comment "Check High temperature alarm". -/
def checkHighTemperature [Sub α] [LT α] [DecidableRel (fun a b : α => a < b)]
    (fmt : α → String) (c : AlarmCheck α) : AlarmCheck α :=
  let s := c.sensor
  if s.temperatureWork > s.alarmHighTemperature then
    if s.alarmHighTemperatureActive && !s.alarmHighTemperatureSent then
      { sendAlarm := true
        responce := c.responce ++
          clause fmt "High Temperature" s.temperatureWork s.alarmHighTemperature
        sensor := { s with alarmHighTemperatureSent := true } }
    else c
  else if s.temperatureWork < s.alarmHighTemperature - s.alarmHystTemperature then
    { c with sensor := { s with alarmHighTemperatureSent := false } }
  else c

/-- The block of `alarmCheck` under the comment "Check Low temperature alarm". -/
def checkLowTemperature [Add α] [LT α] [DecidableRel (fun a b : α => a < b)]
    (fmt : α → String) (c : AlarmCheck α) : AlarmCheck α :=
  let s := c.sensor
  if s.temperatureWork < s.alarmLowTemperature then
    if s.alarmLowTemperatureActive && !s.alarmLowTemperatureSent then
      { sendAlarm := true
        responce := c.responce ++
          clause fmt "Low Temperature" s.temperatureWork s.alarmLowTemperature
        sensor := { s with alarmLowTemperatureSent := true } }
    else c
  else if s.temperatureWork > s.alarmLowTemperature + s.alarmHystTemperature then
    { c with sensor := { s with alarmLowTemperatureSent := false } }
  else c

/-- The block of `alarmCheck` under the comment "Check High humidity alarm". -/
def checkHighHumidity [Sub α] [LT α] [DecidableRel (fun a b : α => a < b)]
    (fmt : α → String) (c : AlarmCheck α) : AlarmCheck α :=
  let s := c.sensor
  if s.humidityWork > s.alarmHighHumidity then
    if s.alarmHighHumidityActive && !s.alarmHighHumiditySent then
      { sendAlarm := true
        responce := c.responce ++
          clause fmt "High Humidity" s.humidityWork s.alarmHighHumidity
        sensor := { s with alarmHighHumiditySent := true } }
    else c
  else if s.humidityWork < s.alarmHighHumidity - s.alarmHystHumidity then
    { c with sensor := { s with alarmHighHumiditySent := false } }
  else c

/-- The block of `alarmCheck` under the comment "Check Low Humidity alarm". -/
def checkLowHumidity [Add α] [LT α] [DecidableRel (fun a b : α => a < b)]
    (fmt : α → String) (c : AlarmCheck α) : AlarmCheck α :=
  let s := c.sensor
  if s.humidityWork < s.alarmLowHumidity then
    if s.alarmLowHumidityActive && !s.alarmLowHumiditySent then
      { sendAlarm := true
        responce := c.responce ++
          clause fmt "Low Humidity" s.humidityWork s.alarmLowHumidity
        sensor := { s with alarmLowHumiditySent := true } }
    else c
  else if s.humidityWork > s.alarmLowHumidity + s.alarmHystHumidity then
    { c with sensor := { s with alarmLowHumiditySent := false } }
  else c

/-- The function `HumiditySensor::alarmCheck`: `sendAlarm = false`, the word "Alarm" is written,
then the four blocks run in the order of the source.  The result holds the returned flag, the
text left in `responce` and the sensor afterwards. -/
def alarmCheck [Add α] [Sub α] [LT α] [DecidableRel (fun a b : α => a < b)]
    (fmt : α → String) (s : HumiditySensor α) : AlarmCheck α :=
  checkLowHumidity fmt
    (checkHighHumidity fmt
      (checkLowTemperature fmt
        (checkHighTemperature fmt
          { sendAlarm := false, responce := "Alarm", sensor := s })))

end HumiditySensor

namespace HumiditySensor

variable {α : Type}

/-- The default constructor `HumiditySensor::HumiditySensor()`.  It assigns fourteen members; the
working values, the last sent values and the four alarm levels are not assigned and keep
whatever the memory of the object held, which is the argument `memory`. -/
def construct [OfScientific α] [OfNat α 0] [OfNat α 2] (memory : HumiditySensor α) :
    HumiditySensor α :=
  { memory with
    valueSendTime := 0
    temperatureDiffMax := 0.3
    temperatureOffset := 0
    humidityDiffMax := 2
    humidityOffset := 0
    alarmHighTemperatureActive := false
    alarmLowTemperatureActive := false
    alarmHighHumidityActive := false
    alarmLowHumidityActive := false
    alarmHighTemperatureSent := false
    alarmLowTemperatureSent := false
    alarmHighHumiditySent := false
    alarmLowHumiditySent := false
    alarmHystTemperature := 5.0
    alarmHystHumidity := 5.0 }

end HumiditySensor

namespace HumiditySensor

variable {α : Type}

/-- One reading as the caller handles it: `valueTimeToSend` on the reading, then `alarmCheck` on
the sensor it leaves, whether or not the reading is sent. -/
def evaluate [Add α] [Sub α] [LT α] [DecidableRel (fun a b : α => a < b)]
    (fmt : α → String) (ALWAYS_SEND_TIMEOUT clockCheck clockStamp : Int)
    (s : HumiditySensor α) (temperature humidity : α) : AlarmCheck α :=
  (s.valueTimeToSend ALWAYS_SEND_TIMEOUT clockCheck clockStamp temperature humidity).2.alarmCheck
    fmt

end HumiditySensor

/-! ## The decisions taken by the four blocks of `alarmCheck`

Each block reads the working value, its own level, its own active flag, its own latch and the
hysteresis.  The functions below name the two things a block decides: whether it fires (the
inner `if` of the source is entered) and what its latch is afterwards. -/

namespace HumiditySensor

variable {α : Type}

/-- The inner `if` of the high temperature block is entered. -/
def firesHighTemperature [LT α] [DecidableRel (fun a b : α => a < b)]
    (s : HumiditySensor α) : Bool :=
  decide (s.temperatureWork > s.alarmHighTemperature) &&
    (s.alarmHighTemperatureActive && !s.alarmHighTemperatureSent)

/-- The inner `if` of the low temperature block is entered. -/
def firesLowTemperature [LT α] [DecidableRel (fun a b : α => a < b)]
    (s : HumiditySensor α) : Bool :=
  decide (s.temperatureWork < s.alarmLowTemperature) &&
    (s.alarmLowTemperatureActive && !s.alarmLowTemperatureSent)

/-- The inner `if` of the high humidity block is entered. -/
def firesHighHumidity [LT α] [DecidableRel (fun a b : α => a < b)]
    (s : HumiditySensor α) : Bool :=
  decide (s.humidityWork > s.alarmHighHumidity) &&
    (s.alarmHighHumidityActive && !s.alarmHighHumiditySent)

/-- The inner `if` of the low humidity block is entered. -/
def firesLowHumidity [LT α] [DecidableRel (fun a b : α => a < b)]
    (s : HumiditySensor α) : Bool :=
  decide (s.humidityWork < s.alarmLowHumidity) &&
    (s.alarmLowHumidityActive && !s.alarmLowHumiditySent)

/-- The latch `alarmHighTemperatureSent` after the high temperature block. -/
def nextHighTemperatureSent [Sub α] [LT α] [DecidableRel (fun a b : α => a < b)]
    (s : HumiditySensor α) : Bool :=
  if s.temperatureWork > s.alarmHighTemperature then
    s.alarmHighTemperatureSent || s.alarmHighTemperatureActive
  else if s.temperatureWork < s.alarmHighTemperature - s.alarmHystTemperature then false
  else s.alarmHighTemperatureSent

/-- The latch `alarmLowTemperatureSent` after the low temperature block. -/
def nextLowTemperatureSent [Add α] [LT α] [DecidableRel (fun a b : α => a < b)]
    (s : HumiditySensor α) : Bool :=
  if s.temperatureWork < s.alarmLowTemperature then
    s.alarmLowTemperatureSent || s.alarmLowTemperatureActive
  else if s.temperatureWork > s.alarmLowTemperature + s.alarmHystTemperature then false
  else s.alarmLowTemperatureSent

/-- The latch `alarmHighHumiditySent` after the high humidity block. -/
def nextHighHumiditySent [Sub α] [LT α] [DecidableRel (fun a b : α => a < b)]
    (s : HumiditySensor α) : Bool :=
  if s.humidityWork > s.alarmHighHumidity then
    s.alarmHighHumiditySent || s.alarmHighHumidityActive
  else if s.humidityWork < s.alarmHighHumidity - s.alarmHystHumidity then false
  else s.alarmHighHumiditySent

/-- The latch `alarmLowHumiditySent` after the low humidity block. -/
def nextLowHumiditySent [Add α] [LT α] [DecidableRel (fun a b : α => a < b)]
    (s : HumiditySensor α) : Bool :=
  if s.humidityWork < s.alarmLowHumidity then
    s.alarmLowHumiditySent || s.alarmLowHumidityActive
  else if s.humidityWork > s.alarmLowHumidity + s.alarmHystHumidity then false
  else s.alarmLowHumiditySent

/-- The clause a block appends when it fires, and nothing otherwise. -/
def clauseIf (fires : Bool) (fmt : α → String) (label : String) (value level : α) : String :=
  if fires then clause fmt label value level else ""

end HumiditySensor

/-! ## Calls on a sensor -/

/-- The calls a user of the class makes on a sensor, each with its arguments. -/
inductive Call (α : Type) where
  | valueTimeToSend (clockCheck clockStamp : Int) (temperature humidity : α)
  | alarmCheck
  | alarmFailed
  | setAlarmLevels (highTemperature : α) (highTemperatureActive : Bool)
      (lowTemperature : α) (lowTemperatureActive : Bool)
      (highHumidity : α) (highHumidityActive : Bool)
      (lowHumidity : α) (lowHumidityActive : Bool)
  | setAlarmHyst (hystTemperature hystHumidity : α)
  | setDiffToSend (temperature humidity : α)
  | setValueOffset (temperature humidity : α)

namespace Call

variable {α : Type}

/-- The sensor after one call. -/
def run [Add α] [Sub α] [LT α] [DecidableRel (fun a b : α => a < b)]
    (fmt : α → String) (ALWAYS_SEND_TIMEOUT : Int) :
    Call α → HumiditySensor α → HumiditySensor α
  | valueTimeToSend clockCheck clockStamp temperature humidity, s =>
      (s.valueTimeToSend ALWAYS_SEND_TIMEOUT clockCheck clockStamp temperature humidity).2
  | alarmCheck, s => (s.alarmCheck fmt).sensor
  | alarmFailed, s => s.alarmFailed
  | setAlarmLevels ht hta lt lta hh hha lh lha, s =>
      s.setAlarmLevels ht hta lt lta hh hha lh lha
  | setAlarmHyst hystTemperature hystHumidity, s => s.setAlarmHyst hystTemperature hystHumidity
  | setDiffToSend temperature humidity, s => s.setDiffToSend temperature humidity
  | setValueOffset temperature humidity, s => s.setValueOffset temperature humidity

/-- The sensor after a sequence of calls, made from left to right. -/
def runAll [Add α] [Sub α] [LT α] [DecidableRel (fun a b : α => a < b)]
    (fmt : α → String) (ALWAYS_SEND_TIMEOUT : Int) :
    List (Call α) → HumiditySensor α → HumiditySensor α
  | [], s => s
  | c :: cs, s => runAll fmt ALWAYS_SEND_TIMEOUT cs (c.run fmt ALWAYS_SEND_TIMEOUT s)

/-- The call is `setAlarmLevels`, whatever its arguments. -/
def isSetAlarmLevels : Call α → Bool
  | setAlarmLevels _ _ _ _ _ _ _ _ => true
  | _ => false

end Call

namespace HumiditySensor

variable {α : Type}

/-- Some latch is clear in `before` and set in `after`. -/
def latchSet (before after : HumiditySensor α) : Bool :=
  (!before.alarmHighTemperatureSent && after.alarmHighTemperatureSent) ||
  (!before.alarmLowTemperatureSent && after.alarmLowTemperatureSent) ||
  (!before.alarmHighHumiditySent && after.alarmHighHumiditySent) ||
  (!before.alarmLowHumiditySent && after.alarmLowHumiditySent)

end HumiditySensor

/-! ## Concrete data used by the examples -/

/-- An integer below one hundred written with two digits. -/
def twoDigits (n : Nat) : String :=
  (if n < 10 then "0" else "") ++ toString n

/-- The number of hundredths nearest to the absolute value of `q`, a tie going to the even
neighbour. -/
def roundHundredths (q : ℚ) : Nat :=
  let n := q.num.natAbs * 100
  let f := n / q.den
  let r := n % q.den
  if 2 * r < q.den then f
  else if q.den < 2 * r then f + 1
  else if f % 2 = 0 then f else f + 1

/-- The conversion `%.02f` of the C library on an exact rational value: sign, integer part,
a point and two decimals. -/
def fmt2 (q : ℚ) : String :=
  let n := roundHundredths q
  (if q < 0 then "-" else "") ++ toString (n / 100) ++ "." ++ twoDigits (n % 100)

/-- A sensor over the rationals: last sent 20 degrees and 50 percent at time 1000, diff limits
1/4 and 2, no offsets, all alarms inactive with levels 30, 10, 80, 20 and hysteresis 5. -/
def sensorQ : HumiditySensor ℚ where
  valueSendTime := 1000
  temperatureDiffMax := 1/4
  temperatureOffset := 0
  humidityDiffMax := 2
  humidityOffset := 0
  temperatureWork := 20
  humidityWork := 50
  temperatureSent := 20
  humiditySent := 50
  alarmHighTemperature := 30
  alarmLowTemperature := 10
  alarmHighHumidity := 80
  alarmLowHumidity := 20
  alarmHighTemperatureActive := false
  alarmLowTemperatureActive := false
  alarmHighHumidityActive := false
  alarmLowHumidityActive := false
  alarmHighTemperatureSent := false
  alarmLowTemperatureSent := false
  alarmHighHumiditySent := false
  alarmLowHumiditySent := false
  alarmHystTemperature := 5
  alarmHystHumidity := 5

/-- The sensor `sensorQ` with a negative temperature diff limit. -/
def sensorNegDiff : HumiditySensor ℚ :=
  { sensorQ with temperatureDiffMax := -1 }

/-- The sensor `sensorQ` with the temperature diff limit set to the binary64 value nearest to
0.3, which is 5404319552844595 / 2^54. -/
def sensorBinary64 : HumiditySensor ℚ :=
  { sensorQ with temperatureDiffMax := 5404319552844595 / 18014398509481984 }

/-- The sensor `sensorQ` with the high temperature latch set and a working temperature of 24,
below the level 30 minus the hysteresis 5. -/
def sensorCooled : HumiditySensor ℚ :=
  { sensorQ with
    alarmHighTemperatureActive := true
    alarmHighTemperatureSent := true
    temperatureWork := 24 }

/-- The sensor `sensorQ` with the high temperature and low humidity alarms active, a working
temperature of 31 (level 30) and a working humidity of 15 (level 20). -/
def sensorHotDry : HumiditySensor ℚ :=
  { sensorQ with
    alarmHighTemperatureActive := true
    alarmLowHumidityActive := true
    temperatureWork := 31
    humidityWork := 15 }

/-- The sensor `sensorQ` with the high temperature alarm active: level 30, hysteresis 5, latch
clear, no offset. -/
def sensorArmed : HumiditySensor ℚ :=
  { sensorQ with alarmHighTemperatureActive := true }

/-- The first reading of the trace: 31 degrees on `sensorArmed`, timeout 600. -/
def trace1 : AlarmCheck ℚ := sensorArmed.evaluate fmt2 600 1010 1010 31 50

/-- The second reading of the trace: 29 degrees. -/
def trace2 : AlarmCheck ℚ := trace1.sensor.evaluate fmt2 600 1020 1020 29 50

/-- The third reading of the trace: 24 degrees. -/
def trace3 : AlarmCheck ℚ := trace2.sensor.evaluate fmt2 600 1030 1030 24 50

/-- The fourth reading of the trace: 31 degrees again. -/
def trace4 : AlarmCheck ℚ := trace3.sensor.evaluate fmt2 600 1040 1040 31 50

/-- The sensor `sensorHotDry` with the high temperature latch already set: that alarm was sent
before and its value is still above the level. -/
def sensorLatchedHotDry : HumiditySensor ℚ :=
  { sensorHotDry with alarmHighTemperatureSent := true }

/-- A sequence of calls that never sets the alarm levels. -/
def callsWithoutLevels : List (Call ℚ) :=
  [Call.setValueOffset 1 0, Call.valueTimeToSend 1010 1010 40 95, Call.alarmCheck,
    Call.setAlarmHyst 2 2, Call.setDiffToSend 1 1, Call.alarmFailed,
    Call.valueTimeToSend 1020 1020 (-20) 5]

/-- The sensor `sensorQ` with the high temperature alarm active and latched and a working
temperature of 29, between the level 30 minus the hysteresis 5 and the level. -/
def sensorLatched29 : HumiditySensor ℚ :=
  { sensorQ with
    alarmHighTemperatureActive := true
    alarmHighTemperatureSent := true
    temperatureWork := 29 }

/-! ## Lemmas on `valueTimeToSend` -/

section SendLemmas

variable {α : Type} [Add α] [Sub α] [LT α] [DecidableRel (fun a b : α => a < b)]

/-- The five tests of `valueTimeToSend`, in the order of the source, on the calibrated sensor. -/
theorem valueTimeToSend_fst_iff (T c1 c2 : Int) (s : HumiditySensor α) (t h : α) :
    (s.valueTimeToSend T c1 c2 t h).1 = true ↔
      (s.valueSendTime = 0 ∨ c1 - s.valueSendTime ≥ T) ∨
      (t + s.temperatureOffset > s.temperatureSent ∧
        t + s.temperatureOffset - s.temperatureSent > s.temperatureDiffMax) ∨
      (h + s.humidityOffset > s.humiditySent ∧
        h + s.humidityOffset - s.humiditySent > s.humidityDiffMax) ∨
      (t + s.temperatureOffset < s.temperatureSent ∧
        s.temperatureSent - (t + s.temperatureOffset) > s.temperatureDiffMax) ∨
      (h + s.humidityOffset < s.humiditySent ∧
        s.humiditySent - (h + s.humidityOffset) > s.humidityDiffMax) := by
  unfold HumiditySensor.valueTimeToSend
  simp only [HumiditySensor.calibrate]
  split_ifs with h1 h2 h3 h4 h5 <;> simp_all

/-- The sensor after `valueTimeToSend` is the calibrated sensor, with the send recorded when the
result is true. -/
theorem valueTimeToSend_snd (T c1 c2 : Int) (s : HumiditySensor α) (t h : α) :
    (s.valueTimeToSend T c1 c2 t h).2 =
      if (s.valueTimeToSend T c1 c2 t h).1 = true
      then HumiditySensor.recordSend c2 (s.calibrate t h)
      else s.calibrate t h := by
  unfold HumiditySensor.valueTimeToSend
  simp only []
  split_ifs <;> simp_all

end SendLemmas

theorem string_eq_empty_iff (a : String) : a = "" ↔ a.length = 0 := by
  constructor
  · rintro rfl
    rfl
  · intro h
    apply String.ext
    exact List.length_eq_zero.mp h

/-- Four texts appended to a text leave it as it is only when all four are empty. -/
theorem append_four_eq_left (p a b c d : String) :
    p ++ a ++ b ++ c ++ d = p ↔ a = "" ∧ b = "" ∧ c = "" ∧ d = "" := by
  constructor
  · intro h
    have hl := congrArg String.length h
    simp only [String.length_append] at hl
    simp only [string_eq_empty_iff]
    omega
  · rintro ⟨rfl, rfl, rfl, rfl⟩
    simp

/-- A clause is never the empty text: it starts with " : ". -/
theorem clause_ne_empty {α : Type} (fmt : α → String) (label : String) (value level : α) :
    HumiditySensor.clause fmt label value level ≠ "" := by
  intro h
  have hl := congrArg String.length h
  have h3 : (" : " : String).length = 3 := rfl
  simp only [HumiditySensor.clause, String.length_append, h3, String.length_empty] at hl
  omega

theorem clauseIf_eq_empty_iff {α : Type} (fires : Bool) (fmt : α → String) (label : String)
    (value level : α) :
    HumiditySensor.clauseIf fires fmt label value level = "" ↔ fires = false := by
  cases fires
  · simp [HumiditySensor.clauseIf]
  · simp [HumiditySensor.clauseIf, clause_ne_empty]

/-! ## Lemmas on `alarmCheck` -/

section AlarmLemmas

variable {α : Type} [LT α] [DecidableRel (fun a b : α => a < b)]

theorem checkHighTemperature_eq [Sub α] (fmt : α → String) (c : AlarmCheck α) :
    HumiditySensor.checkHighTemperature fmt c =
      { sendAlarm := c.sendAlarm || c.sensor.firesHighTemperature
        responce := c.responce ++ HumiditySensor.clauseIf c.sensor.firesHighTemperature fmt
          "High Temperature" c.sensor.temperatureWork c.sensor.alarmHighTemperature
        sensor := { c.sensor with
          alarmHighTemperatureSent := c.sensor.nextHighTemperatureSent } } := by
  obtain ⟨b, r, s⟩ := c
  unfold HumiditySensor.checkHighTemperature HumiditySensor.firesHighTemperature
    HumiditySensor.nextHighTemperatureSent HumiditySensor.clauseIf
  cases s
  dsimp only
  split_ifs <;> simp_all

theorem checkLowTemperature_eq [Add α] (fmt : α → String) (c : AlarmCheck α) :
    HumiditySensor.checkLowTemperature fmt c =
      { sendAlarm := c.sendAlarm || c.sensor.firesLowTemperature
        responce := c.responce ++ HumiditySensor.clauseIf c.sensor.firesLowTemperature fmt
          "Low Temperature" c.sensor.temperatureWork c.sensor.alarmLowTemperature
        sensor := { c.sensor with
          alarmLowTemperatureSent := c.sensor.nextLowTemperatureSent } } := by
  obtain ⟨b, r, s⟩ := c
  unfold HumiditySensor.checkLowTemperature HumiditySensor.firesLowTemperature
    HumiditySensor.nextLowTemperatureSent HumiditySensor.clauseIf
  cases s
  dsimp only
  split_ifs <;> simp_all

theorem checkHighHumidity_eq [Sub α] (fmt : α → String) (c : AlarmCheck α) :
    HumiditySensor.checkHighHumidity fmt c =
      { sendAlarm := c.sendAlarm || c.sensor.firesHighHumidity
        responce := c.responce ++ HumiditySensor.clauseIf c.sensor.firesHighHumidity fmt
          "High Humidity" c.sensor.humidityWork c.sensor.alarmHighHumidity
        sensor := { c.sensor with
          alarmHighHumiditySent := c.sensor.nextHighHumiditySent } } := by
  obtain ⟨b, r, s⟩ := c
  unfold HumiditySensor.checkHighHumidity HumiditySensor.firesHighHumidity
    HumiditySensor.nextHighHumiditySent HumiditySensor.clauseIf
  cases s
  dsimp only
  split_ifs <;> simp_all

theorem checkLowHumidity_eq [Add α] (fmt : α → String) (c : AlarmCheck α) :
    HumiditySensor.checkLowHumidity fmt c =
      { sendAlarm := c.sendAlarm || c.sensor.firesLowHumidity
        responce := c.responce ++ HumiditySensor.clauseIf c.sensor.firesLowHumidity fmt
          "Low Humidity" c.sensor.humidityWork c.sensor.alarmLowHumidity
        sensor := { c.sensor with
          alarmLowHumiditySent := c.sensor.nextLowHumiditySent } } := by
  obtain ⟨b, r, s⟩ := c
  unfold HumiditySensor.checkLowHumidity HumiditySensor.firesLowHumidity
    HumiditySensor.nextLowHumiditySent HumiditySensor.clauseIf
  cases s
  dsimp only
  split_ifs <;> simp_all

/-- The result of `alarmCheck` in closed form: every block decides on the sensor as it was at
the call, because no block writes what another block reads. -/
theorem alarmCheck_eq [Add α] [Sub α] (fmt : α → String) (s : HumiditySensor α) :
    s.alarmCheck fmt =
      { sendAlarm := s.firesHighTemperature || s.firesLowTemperature ||
          s.firesHighHumidity || s.firesLowHumidity
        responce := "Alarm" ++
          HumiditySensor.clauseIf s.firesHighTemperature fmt "High Temperature"
            s.temperatureWork s.alarmHighTemperature ++
          HumiditySensor.clauseIf s.firesLowTemperature fmt "Low Temperature"
            s.temperatureWork s.alarmLowTemperature ++
          HumiditySensor.clauseIf s.firesHighHumidity fmt "High Humidity"
            s.humidityWork s.alarmHighHumidity ++
          HumiditySensor.clauseIf s.firesLowHumidity fmt "Low Humidity"
            s.humidityWork s.alarmLowHumidity
        sensor := { s with
          alarmHighTemperatureSent := s.nextHighTemperatureSent
          alarmLowTemperatureSent := s.nextLowTemperatureSent
          alarmHighHumiditySent := s.nextHighHumiditySent
          alarmLowHumiditySent := s.nextLowHumiditySent } } := by
  unfold HumiditySensor.alarmCheck
  rw [checkHighTemperature_eq, checkLowTemperature_eq, checkHighHumidity_eq,
    checkLowHumidity_eq]
  rfl

theorem firesHighTemperature_iff (s : HumiditySensor α) :
    s.firesHighTemperature = true ↔
      s.temperatureWork > s.alarmHighTemperature ∧ s.alarmHighTemperatureActive = true ∧
          s.alarmHighTemperatureSent = false := by
  unfold HumiditySensor.firesHighTemperature
  simp

/-- The latch of the block goes from clear to set exactly when the block fires. -/
theorem eventHighTemperature_eq [Sub α] (s : HumiditySensor α) :
    (!s.alarmHighTemperatureSent && s.nextHighTemperatureSent) = s.firesHighTemperature := by
  unfold HumiditySensor.firesHighTemperature HumiditySensor.nextHighTemperatureSent
  cases s.alarmHighTemperatureSent <;> cases s.alarmHighTemperatureActive <;> split_ifs <;> simp_all

theorem firesLowTemperature_iff (s : HumiditySensor α) :
    s.firesLowTemperature = true ↔
      s.temperatureWork < s.alarmLowTemperature ∧ s.alarmLowTemperatureActive = true ∧
          s.alarmLowTemperatureSent = false := by
  unfold HumiditySensor.firesLowTemperature
  simp

/-- The latch of the block goes from clear to set exactly when the block fires. -/
theorem eventLowTemperature_eq [Add α] (s : HumiditySensor α) :
    (!s.alarmLowTemperatureSent && s.nextLowTemperatureSent) = s.firesLowTemperature := by
  unfold HumiditySensor.firesLowTemperature HumiditySensor.nextLowTemperatureSent
  cases s.alarmLowTemperatureSent <;> cases s.alarmLowTemperatureActive <;> split_ifs <;> simp_all

theorem firesHighHumidity_iff (s : HumiditySensor α) :
    s.firesHighHumidity = true ↔
      s.humidityWork > s.alarmHighHumidity ∧ s.alarmHighHumidityActive = true ∧
          s.alarmHighHumiditySent = false := by
  unfold HumiditySensor.firesHighHumidity
  simp

/-- The latch of the block goes from clear to set exactly when the block fires. -/
theorem eventHighHumidity_eq [Sub α] (s : HumiditySensor α) :
    (!s.alarmHighHumiditySent && s.nextHighHumiditySent) = s.firesHighHumidity := by
  unfold HumiditySensor.firesHighHumidity HumiditySensor.nextHighHumiditySent
  cases s.alarmHighHumiditySent <;> cases s.alarmHighHumidityActive <;> split_ifs <;> simp_all

theorem firesLowHumidity_iff (s : HumiditySensor α) :
    s.firesLowHumidity = true ↔
      s.humidityWork < s.alarmLowHumidity ∧ s.alarmLowHumidityActive = true ∧
          s.alarmLowHumiditySent = false := by
  unfold HumiditySensor.firesLowHumidity
  simp

/-- The latch of the block goes from clear to set exactly when the block fires. -/
theorem eventLowHumidity_eq [Add α] (s : HumiditySensor α) :
    (!s.alarmLowHumiditySent && s.nextLowHumiditySent) = s.firesLowHumidity := by
  unfold HumiditySensor.firesLowHumidity HumiditySensor.nextLowHumiditySent
  cases s.alarmLowHumiditySent <;> cases s.alarmLowHumidityActive <;> split_ifs <;> simp_all

/-- A block that fires sets its latch, makes the flag true and puts its clause in the text. -/
theorem alarmCheck_of_firesHighTemperature [Add α] [Sub α] (fmt : α → String) (s : HumiditySensor α)
    (hf : s.firesHighTemperature = true) :
    s.alarmHighTemperatureSent = false ∧ (s.alarmCheck fmt).sensor.alarmHighTemperatureSent = true ∧
      (s.alarmCheck fmt).sendAlarm = true ∧
      ∃ before after : String, (s.alarmCheck fmt).responce =
        before ++ HumiditySensor.clause fmt "High Temperature" s.temperatureWork
            s.alarmHighTemperature ++ after := by
  have hev := eventHighTemperature_eq s
  rw [hf] at hev
  simp only [Bool.and_eq_true, Bool.not_eq_true'] at hev
  refine ⟨hev.1, ?_, ?_, ?_⟩
  · simp only [alarmCheck_eq]
    exact hev.2
  · simp only [alarmCheck_eq]
    simp [hf]
  · refine ⟨"Alarm",
      HumiditySensor.clauseIf s.firesLowTemperature fmt "Low Temperature" s.temperatureWork
          s.alarmLowTemperature ++
        HumiditySensor.clauseIf s.firesHighHumidity fmt "High Humidity" s.humidityWork
            s.alarmHighHumidity ++
        HumiditySensor.clauseIf s.firesLowHumidity fmt "Low Humidity" s.humidityWork
            s.alarmLowHumidity, ?_⟩
    simp only [alarmCheck_eq]
    simp [HumiditySensor.clauseIf, hf, String.append_assoc]

/-- A block that fires will fire again on the sensor left by `alarmCheck` once `alarmFailed` has
cleared the latches. -/
theorem firesHighTemperature_rearm [Add α] [Sub α] (fmt : α → String) (s : HumiditySensor α)
    (hf : s.firesHighTemperature = true) :
    (s.alarmCheck fmt).sensor.alarmFailed.firesHighTemperature = true := by
  rw [firesHighTemperature_iff] at hf ⊢
  simp only [alarmCheck_eq]
  exact ⟨hf.1, hf.2.1, rfl⟩

/-- A block that fires sets its latch, makes the flag true and puts its clause in the text. -/
theorem alarmCheck_of_firesLowTemperature [Add α] [Sub α] (fmt : α → String) (s : HumiditySensor α)
    (hf : s.firesLowTemperature = true) :
    s.alarmLowTemperatureSent = false ∧ (s.alarmCheck fmt).sensor.alarmLowTemperatureSent = true ∧
      (s.alarmCheck fmt).sendAlarm = true ∧
      ∃ before after : String, (s.alarmCheck fmt).responce =
        before ++ HumiditySensor.clause fmt "Low Temperature" s.temperatureWork
            s.alarmLowTemperature ++ after := by
  have hev := eventLowTemperature_eq s
  rw [hf] at hev
  simp only [Bool.and_eq_true, Bool.not_eq_true'] at hev
  refine ⟨hev.1, ?_, ?_, ?_⟩
  · simp only [alarmCheck_eq]
    exact hev.2
  · simp only [alarmCheck_eq]
    simp [hf]
  · refine ⟨"Alarm" ++
        HumiditySensor.clauseIf s.firesHighTemperature fmt "High Temperature" s.temperatureWork
            s.alarmHighTemperature,
      HumiditySensor.clauseIf s.firesHighHumidity fmt "High Humidity" s.humidityWork
          s.alarmHighHumidity ++
        HumiditySensor.clauseIf s.firesLowHumidity fmt "Low Humidity" s.humidityWork
            s.alarmLowHumidity, ?_⟩
    simp only [alarmCheck_eq]
    simp [HumiditySensor.clauseIf, hf, String.append_assoc]

/-- A block that fires will fire again on the sensor left by `alarmCheck` once `alarmFailed` has
cleared the latches. -/
theorem firesLowTemperature_rearm [Add α] [Sub α] (fmt : α → String) (s : HumiditySensor α)
    (hf : s.firesLowTemperature = true) :
    (s.alarmCheck fmt).sensor.alarmFailed.firesLowTemperature = true := by
  rw [firesLowTemperature_iff] at hf ⊢
  simp only [alarmCheck_eq]
  exact ⟨hf.1, hf.2.1, rfl⟩

/-- A block that fires sets its latch, makes the flag true and puts its clause in the text. -/
theorem alarmCheck_of_firesHighHumidity [Add α] [Sub α] (fmt : α → String) (s : HumiditySensor α)
    (hf : s.firesHighHumidity = true) :
    s.alarmHighHumiditySent = false ∧ (s.alarmCheck fmt).sensor.alarmHighHumiditySent = true ∧
      (s.alarmCheck fmt).sendAlarm = true ∧
      ∃ before after : String, (s.alarmCheck fmt).responce =
        before ++ HumiditySensor.clause fmt "High Humidity" s.humidityWork s.alarmHighHumidity ++
            after := by
  have hev := eventHighHumidity_eq s
  rw [hf] at hev
  simp only [Bool.and_eq_true, Bool.not_eq_true'] at hev
  refine ⟨hev.1, ?_, ?_, ?_⟩
  · simp only [alarmCheck_eq]
    exact hev.2
  · simp only [alarmCheck_eq]
    simp [hf]
  · refine ⟨"Alarm" ++
        HumiditySensor.clauseIf s.firesHighTemperature fmt "High Temperature" s.temperatureWork
            s.alarmHighTemperature ++
        HumiditySensor.clauseIf s.firesLowTemperature fmt "Low Temperature" s.temperatureWork
            s.alarmLowTemperature,
      HumiditySensor.clauseIf s.firesLowHumidity fmt "Low Humidity" s.humidityWork
          s.alarmLowHumidity, ?_⟩
    simp only [alarmCheck_eq]
    simp [HumiditySensor.clauseIf, hf, String.append_assoc]

/-- A block that fires will fire again on the sensor left by `alarmCheck` once `alarmFailed` has
cleared the latches. -/
theorem firesHighHumidity_rearm [Add α] [Sub α] (fmt : α → String) (s : HumiditySensor α)
    (hf : s.firesHighHumidity = true) :
    (s.alarmCheck fmt).sensor.alarmFailed.firesHighHumidity = true := by
  rw [firesHighHumidity_iff] at hf ⊢
  simp only [alarmCheck_eq]
  exact ⟨hf.1, hf.2.1, rfl⟩

/-- A block that fires sets its latch, makes the flag true and puts its clause in the text. -/
theorem alarmCheck_of_firesLowHumidity [Add α] [Sub α] (fmt : α → String) (s : HumiditySensor α)
    (hf : s.firesLowHumidity = true) :
    s.alarmLowHumiditySent = false ∧ (s.alarmCheck fmt).sensor.alarmLowHumiditySent = true ∧
      (s.alarmCheck fmt).sendAlarm = true ∧
      ∃ before after : String, (s.alarmCheck fmt).responce =
        before ++ HumiditySensor.clause fmt "Low Humidity" s.humidityWork s.alarmLowHumidity ++
            after := by
  have hev := eventLowHumidity_eq s
  rw [hf] at hev
  simp only [Bool.and_eq_true, Bool.not_eq_true'] at hev
  refine ⟨hev.1, ?_, ?_, ?_⟩
  · simp only [alarmCheck_eq]
    exact hev.2
  · simp only [alarmCheck_eq]
    simp [hf]
  · refine ⟨"Alarm" ++
        HumiditySensor.clauseIf s.firesHighTemperature fmt "High Temperature" s.temperatureWork
            s.alarmHighTemperature ++
        HumiditySensor.clauseIf s.firesLowTemperature fmt "Low Temperature" s.temperatureWork
            s.alarmLowTemperature ++
        HumiditySensor.clauseIf s.firesHighHumidity fmt "High Humidity" s.humidityWork
            s.alarmHighHumidity,
      "", ?_⟩
    simp only [alarmCheck_eq]
    simp [HumiditySensor.clauseIf, hf, String.append_assoc]

/-- A block that fires will fire again on the sensor left by `alarmCheck` once `alarmFailed` has
cleared the latches. -/
theorem firesLowHumidity_rearm [Add α] [Sub α] (fmt : α → String) (s : HumiditySensor α)
    (hf : s.firesLowHumidity = true) :
    (s.alarmCheck fmt).sensor.alarmFailed.firesLowHumidity = true := by
  rw [firesLowHumidity_iff] at hf ⊢
  simp only [alarmCheck_eq]
  exact ⟨hf.1, hf.2.1, rfl⟩

/-- Recording a send does not change what `alarmCheck` decides: it commutes with it. -/
theorem alarmCheck_recordSend [Add α] [Sub α] (fmt : α → String) (clockStamp : Int)
    (s : HumiditySensor α) :
    (HumiditySensor.recordSend clockStamp s).alarmCheck fmt =
      { s.alarmCheck fmt with
        sensor := HumiditySensor.recordSend clockStamp (s.alarmCheck fmt).sensor } := by
  rw [alarmCheck_eq, alarmCheck_eq]
  rfl

/-- The sensor after `valueTimeToSend` is the calibrated sensor, with or without the send
recorded. -/
theorem valueTimeToSend_snd_cases [Add α] [Sub α] (T c1 c2 : Int) (s : HumiditySensor α)
    (t h : α) :
    (s.valueTimeToSend T c1 c2 t h).2 = s.calibrate t h ∨
    (s.valueTimeToSend T c1 c2 t h).2 = HumiditySensor.recordSend c2 (s.calibrate t h) := by
  rw [valueTimeToSend_snd]
  split_ifs
  · exact Or.inr rfl
  · exact Or.inl rfl

end AlarmLemmas

/-- C1 (forced send). Whatever the sensor state, the reading and the clock values, when
`valueSendTime` is 0 or the clock read in the timeout test minus `valueSendTime` is at least
`ALWAYS_SEND_TIMEOUT`, `valueTimeToSend` returns true; the deltas against the last sent values
play no part. -/
theorem valueTimeToSend_forced {α : Type} [Add α] [Sub α] [LT α]
    [DecidableRel (fun a b : α => a < b)]
    (ALWAYS_SEND_TIMEOUT clockCheck clockStamp : Int)
    (s : HumiditySensor α) (temperature humidity : α)
    (h : s.valueSendTime = 0 ∨ clockCheck - s.valueSendTime ≥ ALWAYS_SEND_TIMEOUT) :
    (s.valueTimeToSend ALWAYS_SEND_TIMEOUT clockCheck clockStamp temperature humidity).1
      = true := by
  have hw : (s.calibrate temperature humidity).valueSendTime = s.valueSendTime := rfl
  unfold HumiditySensor.valueTimeToSend
  simp only [hw, if_pos h]

/-- C1, witness: the sensor `sensorQ`, last sent at time 1000, evaluated at time 1600 with a
timeout of 600 and a reading equal to the last sent values (zero delta). -/
theorem valueTimeToSend_forced_witness :
    (sensorQ.valueSendTime = 0 ∨ (1600 : Int) - sensorQ.valueSendTime ≥ 600) ∧
    (sensorQ.valueTimeToSend 600 1600 1600 20 50).1 = true :=
  ⟨Or.inr (by decide),
    valueTimeToSend_forced 600 1600 1600 sensorQ 20 50 (Or.inr (by decide))⟩

/-- The limit case on exact values: with the limit 1/4 and 20 last sent, the reading 20.25 is
not sent and the reading 20.5 is. -/
theorem valueTimeToSend_at_limit :
    (sensorQ.valueTimeToSend 600 1010 1010 (81 / 4) 50).1 = false ∧
    (sensorQ.valueTimeToSend 600 1010 1010 (41 / 2) 50).1 = true := by
  constructor <;>
  norm_num [HumiditySensor.valueTimeToSend, HumiditySensor.calibrate, HumiditySensor.recordSend,
    sensorQ]

/-- The decimal example of the specification on binary64 values: the double nearest to 20.3 is
5713942027226317 / 2^48, its difference to 20 is a double too, and it is above the double
nearest to 0.3, so this reading is sent. -/
theorem valueTimeToSend_binary64_sends :
    (sensorBinary64.valueTimeToSend 600 1010 1010
      (5713942027226317 / 281474976710656) 50).1 = true := by
  norm_num [HumiditySensor.valueTimeToSend, HumiditySensor.calibrate, HumiditySensor.recordSend,
    sensorBinary64, sensorQ]

/-- C3 (snapshot updated exactly on a send). When `valueTimeToSend` returns true, afterwards
`temperatureSent = temperatureWork`, `humiditySent = humidityWork` and `valueSendTime` is the
clock value read for the stamp (the same update whichever test succeeded); when it returns
false, `temperatureSent`, `humiditySent` and `valueSendTime` are unchanged. -/
theorem valueTimeToSend_snapshot {α : Type} [Add α] [Sub α] [LT α]
    [DecidableRel (fun a b : α => a < b)]
    (ALWAYS_SEND_TIMEOUT clockCheck clockStamp : Int)
    (s : HumiditySensor α) (temperature humidity : α) :
    ((s.valueTimeToSend ALWAYS_SEND_TIMEOUT clockCheck clockStamp temperature humidity).1 = true →
      (s.valueTimeToSend ALWAYS_SEND_TIMEOUT clockCheck clockStamp temperature
          humidity).2.temperatureSent
        = (s.valueTimeToSend ALWAYS_SEND_TIMEOUT clockCheck clockStamp temperature
            humidity).2.temperatureWork ∧
      (s.valueTimeToSend ALWAYS_SEND_TIMEOUT clockCheck clockStamp temperature
          humidity).2.humiditySent
        = (s.valueTimeToSend ALWAYS_SEND_TIMEOUT clockCheck clockStamp temperature
            humidity).2.humidityWork ∧
      (s.valueTimeToSend ALWAYS_SEND_TIMEOUT clockCheck clockStamp temperature
          humidity).2.valueSendTime
        = clockStamp) ∧
    ((s.valueTimeToSend ALWAYS_SEND_TIMEOUT clockCheck clockStamp temperature humidity).1 = false →
      (s.valueTimeToSend ALWAYS_SEND_TIMEOUT clockCheck clockStamp temperature
          humidity).2.temperatureSent
        = s.temperatureSent ∧
      (s.valueTimeToSend ALWAYS_SEND_TIMEOUT clockCheck clockStamp temperature
          humidity).2.humiditySent
        = s.humiditySent ∧
      (s.valueTimeToSend ALWAYS_SEND_TIMEOUT clockCheck clockStamp temperature
          humidity).2.valueSendTime
        = s.valueSendTime) := by
  constructor
  · intro hr
    rw [valueTimeToSend_snd, if_pos hr]
    exact ⟨rfl, rfl, rfl⟩
  · intro hr
    rw [valueTimeToSend_snd, if_neg (by simp [hr])]
    exact ⟨rfl, rfl, rfl⟩

/-- C3, witness: on `sensorQ` (last sent at 1000, timeout 600) the reading 25 degrees at time
1600 is sent and stamped with the second clock read 1601, and the reading 20 degrees at time
1010 is not sent. -/
theorem valueTimeToSend_snapshot_witness :
    ((sensorQ.valueTimeToSend 600 1600 1601 25 50).1 = true ∧
      (sensorQ.valueTimeToSend 600 1600 1601 25 50).2.temperatureSent
        = (sensorQ.valueTimeToSend 600 1600 1601 25 50).2.temperatureWork ∧
      (sensorQ.valueTimeToSend 600 1600 1601 25 50).2.humiditySent
        = (sensorQ.valueTimeToSend 600 1600 1601 25 50).2.humidityWork ∧
      (sensorQ.valueTimeToSend 600 1600 1601 25 50).2.valueSendTime = 1601) ∧
    ((sensorQ.valueTimeToSend 600 1010 1010 20 50).1 = false ∧
      (sensorQ.valueTimeToSend 600 1010 1010 20 50).2.temperatureSent = sensorQ.temperatureSent ∧
      (sensorQ.valueTimeToSend 600 1010 1010 20 50).2.humiditySent = sensorQ.humiditySent ∧
      (sensorQ.valueTimeToSend 600 1010 1010 20 50).2.valueSendTime = sensorQ.valueSendTime) :=
  have h1 : (sensorQ.valueTimeToSend 600 1600 1601 25 50).1 = true := by
    norm_num [HumiditySensor.valueTimeToSend, HumiditySensor.calibrate,
      HumiditySensor.recordSend, sensorQ]
  have h2 : (sensorQ.valueTimeToSend 600 1010 1010 20 50).1 = false := by
    norm_num [HumiditySensor.valueTimeToSend, HumiditySensor.calibrate,
      HumiditySensor.recordSend, sensorQ]
  ⟨⟨h1, (valueTimeToSend_snapshot 600 1600 1601 sensorQ 25 50).1 h1⟩,
    ⟨h2, (valueTimeToSend_snapshot 600 1010 1010 sensorQ 20 50).2 h2⟩⟩

/-- C4 (calibration is always applied). After `valueTimeToSend`, whatever it returned,
`temperatureWork` is the raw temperature plus `temperatureOffset` and `humidityWork` is the raw
humidity plus `humidityOffset`; and an `alarmCheck` that follows returns the flag and the text,
and leaves the four latches and the working values, that it gives on the sensor as it was
before the call with the working values replaced by that calibrated reading. -/
theorem valueTimeToSend_calibrates {α : Type} [Add α] [Sub α] [LT α]
    [DecidableRel (fun a b : α => a < b)] (fmt : α → String)
    (ALWAYS_SEND_TIMEOUT clockCheck clockStamp : Int)
    (s : HumiditySensor α) (temperature humidity : α) :
    (s.valueTimeToSend ALWAYS_SEND_TIMEOUT clockCheck clockStamp temperature
        humidity).2.temperatureWork
      = temperature + s.temperatureOffset ∧
    (s.valueTimeToSend ALWAYS_SEND_TIMEOUT clockCheck clockStamp temperature
        humidity).2.humidityWork
      = humidity + s.humidityOffset ∧
    ((s.valueTimeToSend ALWAYS_SEND_TIMEOUT clockCheck clockStamp temperature
        humidity).2.alarmCheck fmt).sendAlarm
      = (HumiditySensor.alarmCheck fmt { s with
          temperatureWork := temperature + s.temperatureOffset
          humidityWork := humidity + s.humidityOffset }).sendAlarm ∧
    ((s.valueTimeToSend ALWAYS_SEND_TIMEOUT clockCheck clockStamp temperature
        humidity).2.alarmCheck fmt).responce
      = (HumiditySensor.alarmCheck fmt { s with
          temperatureWork := temperature + s.temperatureOffset
          humidityWork := humidity + s.humidityOffset }).responce ∧
    ((s.valueTimeToSend ALWAYS_SEND_TIMEOUT clockCheck clockStamp temperature
        humidity).2.alarmCheck fmt).sensor.alarmHighTemperatureSent
      = (HumiditySensor.alarmCheck fmt { s with
          temperatureWork := temperature + s.temperatureOffset
          humidityWork := humidity + s.humidityOffset }).sensor.alarmHighTemperatureSent ∧
    ((s.valueTimeToSend ALWAYS_SEND_TIMEOUT clockCheck clockStamp temperature
        humidity).2.alarmCheck fmt).sensor.alarmLowTemperatureSent
      = (HumiditySensor.alarmCheck fmt { s with
          temperatureWork := temperature + s.temperatureOffset
          humidityWork := humidity + s.humidityOffset }).sensor.alarmLowTemperatureSent ∧
    ((s.valueTimeToSend ALWAYS_SEND_TIMEOUT clockCheck clockStamp temperature
        humidity).2.alarmCheck fmt).sensor.alarmHighHumiditySent
      = (HumiditySensor.alarmCheck fmt { s with
          temperatureWork := temperature + s.temperatureOffset
          humidityWork := humidity + s.humidityOffset }).sensor.alarmHighHumiditySent ∧
    ((s.valueTimeToSend ALWAYS_SEND_TIMEOUT clockCheck clockStamp temperature
        humidity).2.alarmCheck fmt).sensor.alarmLowHumiditySent
      = (HumiditySensor.alarmCheck fmt { s with
          temperatureWork := temperature + s.temperatureOffset
          humidityWork := humidity + s.humidityOffset }).sensor.alarmLowHumiditySent ∧
    ((s.valueTimeToSend ALWAYS_SEND_TIMEOUT clockCheck clockStamp temperature
        humidity).2.alarmCheck fmt).sensor.temperatureWork
      = temperature + s.temperatureOffset ∧
    ((s.valueTimeToSend ALWAYS_SEND_TIMEOUT clockCheck clockStamp temperature
        humidity).2.alarmCheck fmt).sensor.humidityWork
      = humidity + s.humidityOffset := by
  have hw : ({ s with
      temperatureWork := temperature + s.temperatureOffset
      humidityWork := humidity + s.humidityOffset } : HumiditySensor α)
      = s.calibrate temperature humidity := rfl
  rw [hw]
  rcases valueTimeToSend_snd_cases ALWAYS_SEND_TIMEOUT clockCheck clockStamp s temperature
    humidity with h | h
  · rw [h, alarmCheck_eq]
    exact ⟨rfl, rfl, rfl, rfl, rfl, rfl, rfl, rfl, rfl, rfl⟩
  · rw [h, alarmCheck_recordSend, alarmCheck_eq]
    exact ⟨rfl, rfl, rfl, rfl, rfl, rfl, rfl, rfl, rfl, rfl⟩

/-- C5 (latch rule). In one call of `alarmCheck`, each of the four alarms fires (its latch goes
from false to true, the returned flag is true and its clause is part of the text) if and only if
the working value violates its level (above for the high alarms, below for the low alarms), the
alarm is active and its latch was clear before the call. -/
theorem alarmCheck_latch {α : Type} [Add α] [Sub α] [LT α]
    [DecidableRel (fun a b : α => a < b)] (fmt : α → String) (s : HumiditySensor α) :
    ((s.alarmHighTemperatureSent = false ∧
        (s.alarmCheck fmt).sensor.alarmHighTemperatureSent = true ∧
        (s.alarmCheck fmt).sendAlarm = true ∧
        ∃ before after : String, (s.alarmCheck fmt).responce =
          before ++ HumiditySensor.clause fmt "High Temperature" s.temperatureWork
              s.alarmHighTemperature ++ after) ↔
      (s.temperatureWork > s.alarmHighTemperature ∧ s.alarmHighTemperatureActive = true ∧
          s.alarmHighTemperatureSent = false)) ∧
    ((s.alarmLowTemperatureSent = false ∧ (s.alarmCheck fmt).sensor.alarmLowTemperatureSent = true ∧
        (s.alarmCheck fmt).sendAlarm = true ∧
        ∃ before after : String, (s.alarmCheck fmt).responce =
          before ++ HumiditySensor.clause fmt "Low Temperature" s.temperatureWork
              s.alarmLowTemperature ++ after) ↔
      (s.temperatureWork < s.alarmLowTemperature ∧ s.alarmLowTemperatureActive = true ∧
          s.alarmLowTemperatureSent = false)) ∧
    ((s.alarmHighHumiditySent = false ∧ (s.alarmCheck fmt).sensor.alarmHighHumiditySent = true ∧
        (s.alarmCheck fmt).sendAlarm = true ∧
        ∃ before after : String, (s.alarmCheck fmt).responce =
          before ++ HumiditySensor.clause fmt "High Humidity" s.humidityWork s.alarmHighHumidity ++
              after) ↔
      (s.humidityWork > s.alarmHighHumidity ∧ s.alarmHighHumidityActive = true ∧
          s.alarmHighHumiditySent = false)) ∧
    ((s.alarmLowHumiditySent = false ∧ (s.alarmCheck fmt).sensor.alarmLowHumiditySent = true ∧
        (s.alarmCheck fmt).sendAlarm = true ∧
        ∃ before after : String, (s.alarmCheck fmt).responce =
          before ++ HumiditySensor.clause fmt "Low Humidity" s.humidityWork s.alarmLowHumidity ++
              after) ↔
      (s.humidityWork < s.alarmLowHumidity ∧ s.alarmLowHumidityActive = true ∧
          s.alarmLowHumiditySent = false)) := by
  refine ⟨?_, ?_, ?_, ?_⟩
  · rw [← firesHighTemperature_iff]
    constructor
    · rintro ⟨h0, h1, -, -⟩
      rw [← eventHighTemperature_eq]
      simp only [alarmCheck_eq] at h1
      simp [h0, h1]
    · exact alarmCheck_of_firesHighTemperature fmt s
  · rw [← firesLowTemperature_iff]
    constructor
    · rintro ⟨h0, h1, -, -⟩
      rw [← eventLowTemperature_eq]
      simp only [alarmCheck_eq] at h1
      simp [h0, h1]
    · exact alarmCheck_of_firesLowTemperature fmt s
  · rw [← firesHighHumidity_iff]
    constructor
    · rintro ⟨h0, h1, -, -⟩
      rw [← eventHighHumidity_eq]
      simp only [alarmCheck_eq] at h1
      simp [h0, h1]
    · exact alarmCheck_of_firesHighHumidity fmt s
  · rw [← firesLowHumidity_iff]
    constructor
    · rintro ⟨h0, h1, -, -⟩
      rw [← eventLowHumidity_eq]
      simp only [alarmCheck_eq] at h1
      simp [h0, h1]
    · exact alarmCheck_of_firesLowHumidity fmt s

/-- C7 (combined result). The flag returned by `alarmCheck` is the logical OR of the four latch
events of the call (a latch that was clear before and is set after); the text is "Alarm"
followed by the clauses of exactly the alarms whose latch event happened, in the order high
temperature, low temperature, high humidity, low humidity, each of the form
" : <label>=<value>(<level>)"; and the flag is false if and only if the text is exactly
"Alarm". -/
theorem alarmCheck_combined {α : Type} [Add α] [Sub α] [LT α]
    [DecidableRel (fun a b : α => a < b)] (fmt : α → String) (s : HumiditySensor α) :
    (s.alarmCheck fmt).sendAlarm =
      ((!s.alarmHighTemperatureSent && (s.alarmCheck fmt).sensor.alarmHighTemperatureSent) ||
        (!s.alarmLowTemperatureSent && (s.alarmCheck fmt).sensor.alarmLowTemperatureSent) ||
        (!s.alarmHighHumiditySent && (s.alarmCheck fmt).sensor.alarmHighHumiditySent) ||
        (!s.alarmLowHumiditySent && (s.alarmCheck fmt).sensor.alarmLowHumiditySent)) ∧
    (s.alarmCheck fmt).responce =
      "Alarm" ++
        (if (!s.alarmHighTemperatureSent &&
            (s.alarmCheck fmt).sensor.alarmHighTemperatureSent) = true
          then " : High Temperature=" ++ fmt s.temperatureWork ++ "(" ++
            fmt s.alarmHighTemperature ++ ")"
          else "") ++
        (if (!s.alarmLowTemperatureSent &&
            (s.alarmCheck fmt).sensor.alarmLowTemperatureSent) = true
          then " : Low Temperature=" ++ fmt s.temperatureWork ++ "(" ++
            fmt s.alarmLowTemperature ++ ")"
          else "") ++
        (if (!s.alarmHighHumiditySent &&
            (s.alarmCheck fmt).sensor.alarmHighHumiditySent) = true
          then " : High Humidity=" ++ fmt s.humidityWork ++ "(" ++
            fmt s.alarmHighHumidity ++ ")"
          else "") ++
        (if (!s.alarmLowHumiditySent &&
            (s.alarmCheck fmt).sensor.alarmLowHumiditySent) = true
          then " : Low Humidity=" ++ fmt s.humidityWork ++ "(" ++
            fmt s.alarmLowHumidity ++ ")"
          else "") ∧
    ((s.alarmCheck fmt).sendAlarm = false ↔ (s.alarmCheck fmt).responce = "Alarm") := by
  have e1 : (!s.alarmHighTemperatureSent && (s.alarmCheck fmt).sensor.alarmHighTemperatureSent)
      = s.firesHighTemperature := by
    rw [← eventHighTemperature_eq, alarmCheck_eq]
  have e2 : (!s.alarmLowTemperatureSent && (s.alarmCheck fmt).sensor.alarmLowTemperatureSent)
      = s.firesLowTemperature := by
    rw [← eventLowTemperature_eq, alarmCheck_eq]
  have e3 : (!s.alarmHighHumiditySent && (s.alarmCheck fmt).sensor.alarmHighHumiditySent)
      = s.firesHighHumidity := by
    rw [← eventHighHumidity_eq, alarmCheck_eq]
  have e4 : (!s.alarmLowHumiditySent && (s.alarmCheck fmt).sensor.alarmLowHumiditySent)
      = s.firesLowHumidity := by
    rw [← eventLowHumidity_eq, alarmCheck_eq]
  rw [e1, e2, e3, e4]
  refine ⟨?_, ?_, ?_⟩
  · rw [alarmCheck_eq]
  · rw [alarmCheck_eq]
    cases s.firesHighTemperature <;> cases s.firesLowTemperature <;>
      cases s.firesHighHumidity <;> cases s.firesLowHumidity <;> rfl
  · rw [alarmCheck_eq]
    simp only [append_four_eq_left, clauseIf_eq_empty_iff, Bool.or_eq_false_iff, and_assoc]

/-- The two-alarm example: on `sensorHotDry` the high temperature and the low humidity alarms
fire in the same call, and the temperature clause comes first. -/
theorem alarmCheck_hot_and_dry :
    (sensorHotDry.alarmCheck fmt2).sendAlarm = true ∧
    (sensorHotDry.alarmCheck fmt2).responce
      = "Alarm : High Temperature=31.00(30.00) : Low Humidity=15.00(20.00)" := by
  constructor
  · norm_num [HumiditySensor.alarmCheck, HumiditySensor.checkHighTemperature,
      HumiditySensor.checkLowTemperature, HumiditySensor.checkHighHumidity,
      HumiditySensor.checkLowHumidity, sensorHotDry, sensorQ]
  · norm_num [HumiditySensor.alarmCheck, HumiditySensor.checkHighTemperature,
      HumiditySensor.checkLowTemperature, HumiditySensor.checkHighHumidity,
      HumiditySensor.checkLowHumidity, sensorHotDry, sensorQ]
    decide

/-- The texts of the trace, by running the code: the first and the fourth reading write the
clause with the value 31.00 and the level 30.00, the second and the third write "Alarm"
only. -/
theorem hysteresis_trace_texts :
    trace1.responce = "Alarm : High Temperature=31.00(30.00)" ∧
    trace2.responce = "Alarm" ∧
    trace3.responce = "Alarm" ∧
    trace4.responce = "Alarm : High Temperature=31.00(30.00)" := by
  have h1 : trace1 =
      { sendAlarm := true
        responce := "Alarm : High Temperature=31.00(30.00)"
        sensor := { sensorArmed with
          temperatureWork := 31, humidityWork := 50, temperatureSent := 31, humiditySent := 50
          valueSendTime := 1010, alarmHighTemperatureSent := true } } := by
    norm_num [trace1, HumiditySensor.evaluate, HumiditySensor.valueTimeToSend,
      HumiditySensor.calibrate, HumiditySensor.recordSend, HumiditySensor.alarmCheck,
      HumiditySensor.checkHighTemperature, HumiditySensor.checkLowTemperature,
      HumiditySensor.checkHighHumidity, HumiditySensor.checkLowHumidity, sensorArmed, sensorQ]
    decide
  have h2 : trace2 =
      { sendAlarm := false
        responce := "Alarm"
        sensor := { sensorArmed with
          temperatureWork := 29, humidityWork := 50, temperatureSent := 29, humiditySent := 50
          valueSendTime := 1020, alarmHighTemperatureSent := true } } := by
    rw [trace2, h1]
    norm_num [HumiditySensor.evaluate, HumiditySensor.valueTimeToSend,
      HumiditySensor.calibrate, HumiditySensor.recordSend, HumiditySensor.alarmCheck,
      HumiditySensor.checkHighTemperature, HumiditySensor.checkLowTemperature,
      HumiditySensor.checkHighHumidity, HumiditySensor.checkLowHumidity, sensorArmed, sensorQ]
  have h3 : trace3 =
      { sendAlarm := false
        responce := "Alarm"
        sensor := { sensorArmed with
          temperatureWork := 24, humidityWork := 50, temperatureSent := 24, humiditySent := 50
          valueSendTime := 1030, alarmHighTemperatureSent := false } } := by
    rw [trace3, h2]
    norm_num [HumiditySensor.evaluate, HumiditySensor.valueTimeToSend,
      HumiditySensor.calibrate, HumiditySensor.recordSend, HumiditySensor.alarmCheck,
      HumiditySensor.checkHighTemperature, HumiditySensor.checkLowTemperature,
      HumiditySensor.checkHighHumidity, HumiditySensor.checkLowHumidity, sensorArmed, sensorQ]
  have h4 : trace4.responce = "Alarm : High Temperature=31.00(30.00)" := by
    rw [trace4, h3]
    norm_num [HumiditySensor.evaluate, HumiditySensor.valueTimeToSend,
      HumiditySensor.calibrate, HumiditySensor.recordSend, HumiditySensor.alarmCheck,
      HumiditySensor.checkHighTemperature, HumiditySensor.checkLowTemperature,
      HumiditySensor.checkHighHumidity, HumiditySensor.checkLowHumidity, sensorArmed, sensorQ]
    decide
  rw [h1, h2, h3]
  exact ⟨rfl, rfl, rfl, h4⟩

/-- C9 (failure acknowledgment). After `alarmFailed` the four latches are clear, and every other
member (send time, diff limits, offsets, working values, last sent values, alarm levels, active
flags and hysteresis margins) is unchanged. -/
theorem alarmFailed_frame {α : Type} (s : HumiditySensor α) :
    s.alarmFailed.alarmHighTemperatureSent = false ∧
    s.alarmFailed.alarmLowTemperatureSent = false ∧
    s.alarmFailed.alarmHighHumiditySent = false ∧
    s.alarmFailed.alarmLowHumiditySent = false ∧
    s.alarmFailed.valueSendTime = s.valueSendTime ∧
    s.alarmFailed.temperatureDiffMax = s.temperatureDiffMax ∧
    s.alarmFailed.temperatureOffset = s.temperatureOffset ∧
    s.alarmFailed.humidityDiffMax = s.humidityDiffMax ∧
    s.alarmFailed.humidityOffset = s.humidityOffset ∧
    s.alarmFailed.temperatureWork = s.temperatureWork ∧
    s.alarmFailed.humidityWork = s.humidityWork ∧
    s.alarmFailed.temperatureSent = s.temperatureSent ∧
    s.alarmFailed.humiditySent = s.humiditySent ∧
    s.alarmFailed.alarmHighTemperature = s.alarmHighTemperature ∧
    s.alarmFailed.alarmLowTemperature = s.alarmLowTemperature ∧
    s.alarmFailed.alarmHighHumidity = s.alarmHighHumidity ∧
    s.alarmFailed.alarmLowHumidity = s.alarmLowHumidity ∧
    s.alarmFailed.alarmHighTemperatureActive = s.alarmHighTemperatureActive ∧
    s.alarmFailed.alarmLowTemperatureActive = s.alarmLowTemperatureActive ∧
    s.alarmFailed.alarmHighHumidityActive = s.alarmHighHumidityActive ∧
    s.alarmFailed.alarmLowHumidityActive = s.alarmLowHumidityActive ∧
    s.alarmFailed.alarmHystTemperature = s.alarmHystTemperature ∧
    s.alarmFailed.alarmHystHumidity = s.alarmHystHumidity :=
  ⟨rfl, rfl, rfl, rfl, rfl, rfl, rfl, rfl, rfl, rfl, rfl, rfl, rfl, rfl, rfl, rfl, rfl, rfl, rfl,
      rfl, rfl, rfl, rfl⟩

/-- C10 (delivery-failure re-arm). When `alarmCheck` returns true, `alarmFailed` followed by
`alarmCheck` on the sensor as it is (same working values, same configuration) returns true
again, and every alarm whose latch went from clear to set in the first call has its latch clear
after `alarmFailed`, set after the second call, and its clause in the second text. -/
theorem alarmCheck_rearm {α : Type} [Add α] [Sub α] [LT α]
    [DecidableRel (fun a b : α => a < b)] (fmt : α → String) (s : HumiditySensor α)
    (h : (s.alarmCheck fmt).sendAlarm = true) :
    ((s.alarmCheck fmt).sensor.alarmFailed.alarmCheck fmt).sendAlarm = true ∧
    (s.alarmHighTemperatureSent = false ∧ (s.alarmCheck fmt).sensor.alarmHighTemperatureSent = true
        →
      (s.alarmCheck fmt).sensor.alarmFailed.alarmHighTemperatureSent = false ∧
      ((s.alarmCheck fmt).sensor.alarmFailed.alarmCheck fmt).sensor.alarmHighTemperatureSent = true
          ∧
      ∃ before after : String,
        ((s.alarmCheck fmt).sensor.alarmFailed.alarmCheck fmt).responce =
          before ++ HumiditySensor.clause fmt "High Temperature" s.temperatureWork
              s.alarmHighTemperature ++ after) ∧
    (s.alarmLowTemperatureSent = false ∧ (s.alarmCheck fmt).sensor.alarmLowTemperatureSent = true →
      (s.alarmCheck fmt).sensor.alarmFailed.alarmLowTemperatureSent = false ∧
      ((s.alarmCheck fmt).sensor.alarmFailed.alarmCheck fmt).sensor.alarmLowTemperatureSent = true ∧
      ∃ before after : String,
        ((s.alarmCheck fmt).sensor.alarmFailed.alarmCheck fmt).responce =
          before ++ HumiditySensor.clause fmt "Low Temperature" s.temperatureWork
              s.alarmLowTemperature ++ after) ∧
    (s.alarmHighHumiditySent = false ∧ (s.alarmCheck fmt).sensor.alarmHighHumiditySent = true →
      (s.alarmCheck fmt).sensor.alarmFailed.alarmHighHumiditySent = false ∧
      ((s.alarmCheck fmt).sensor.alarmFailed.alarmCheck fmt).sensor.alarmHighHumiditySent = true ∧
      ∃ before after : String,
        ((s.alarmCheck fmt).sensor.alarmFailed.alarmCheck fmt).responce =
          before ++ HumiditySensor.clause fmt "High Humidity" s.humidityWork s.alarmHighHumidity ++
              after) ∧
    (s.alarmLowHumiditySent = false ∧ (s.alarmCheck fmt).sensor.alarmLowHumiditySent = true →
      (s.alarmCheck fmt).sensor.alarmFailed.alarmLowHumiditySent = false ∧
      ((s.alarmCheck fmt).sensor.alarmFailed.alarmCheck fmt).sensor.alarmLowHumiditySent = true ∧
      ∃ before after : String,
        ((s.alarmCheck fmt).sensor.alarmFailed.alarmCheck fmt).responce =
          before ++ HumiditySensor.clause fmt "Low Humidity" s.humidityWork s.alarmLowHumidity ++
              after) := by
  refine ⟨?_, ?_, ?_, ?_, ?_⟩
  · rw [alarmCheck_eq] at h
    simp only [Bool.or_eq_true] at h
    rcases h with ((hf | hf) | hf) | hf
    · exact (alarmCheck_of_firesHighTemperature fmt _ (firesHighTemperature_rearm fmt s hf)).2.2.1
    · exact (alarmCheck_of_firesLowTemperature fmt _ (firesLowTemperature_rearm fmt s hf)).2.2.1
    · exact (alarmCheck_of_firesHighHumidity fmt _ (firesHighHumidity_rearm fmt s hf)).2.2.1
    · exact (alarmCheck_of_firesLowHumidity fmt _ (firesLowHumidity_rearm fmt s hf)).2.2.1
  · rintro ⟨h0, h1⟩
    have hf : s.firesHighTemperature = true := by
      rw [← eventHighTemperature_eq]
      simp only [alarmCheck_eq] at h1
      simp [h0, h1]
    obtain ⟨g0, g1, -, g3⟩ := alarmCheck_of_firesHighTemperature fmt _ (firesHighTemperature_rearm
        fmt s hf)
    refine ⟨g0, g1, ?_⟩
    simpa only [alarmCheck_eq] using g3
  · rintro ⟨h0, h1⟩
    have hf : s.firesLowTemperature = true := by
      rw [← eventLowTemperature_eq]
      simp only [alarmCheck_eq] at h1
      simp [h0, h1]
    obtain ⟨g0, g1, -, g3⟩ := alarmCheck_of_firesLowTemperature fmt _ (firesLowTemperature_rearm
        fmt s hf)
    refine ⟨g0, g1, ?_⟩
    simpa only [alarmCheck_eq] using g3
  · rintro ⟨h0, h1⟩
    have hf : s.firesHighHumidity = true := by
      rw [← eventHighHumidity_eq]
      simp only [alarmCheck_eq] at h1
      simp [h0, h1]
    obtain ⟨g0, g1, -, g3⟩ := alarmCheck_of_firesHighHumidity fmt _ (firesHighHumidity_rearm fmt s
        hf)
    refine ⟨g0, g1, ?_⟩
    simpa only [alarmCheck_eq] using g3
  · rintro ⟨h0, h1⟩
    have hf : s.firesLowHumidity = true := by
      rw [← eventLowHumidity_eq]
      simp only [alarmCheck_eq] at h1
      simp [h0, h1]
    obtain ⟨g0, g1, -, g3⟩ := alarmCheck_of_firesLowHumidity fmt _ (firesLowHumidity_rearm fmt s hf)
    refine ⟨g0, g1, ?_⟩
    simpa only [alarmCheck_eq] using g3

/-- C10, witness: on `sensorHotDry` the first `alarmCheck` returns true and sets the high
temperature latch; after `alarmFailed` the second `alarmCheck` returns true and fires the high
temperature alarm again. -/
theorem alarmCheck_rearm_witness :
    (sensorHotDry.alarmCheck fmt2).sendAlarm = true ∧
    ((sensorHotDry.alarmCheck fmt2).sensor.alarmFailed.alarmCheck fmt2).sendAlarm = true ∧
    (sensorHotDry.alarmHighTemperatureSent = false ∧
      (sensorHotDry.alarmCheck fmt2).sensor.alarmHighTemperatureSent = true) ∧
    ((sensorHotDry.alarmCheck fmt2).sensor.alarmFailed.alarmHighTemperatureSent = false ∧
      ((sensorHotDry.alarmCheck fmt2).sensor.alarmFailed.alarmCheck
        fmt2).sensor.alarmHighTemperatureSent = true ∧
      ∃ before after : String,
        ((sensorHotDry.alarmCheck fmt2).sensor.alarmFailed.alarmCheck fmt2).responce =
          before ++ HumiditySensor.clause fmt2 "High Temperature" sensorHotDry.temperatureWork
            sensorHotDry.alarmHighTemperature ++ after) :=
  have h : (sensorHotDry.alarmCheck fmt2).sendAlarm = true := by
    norm_num [HumiditySensor.alarmCheck, HumiditySensor.checkHighTemperature,
      HumiditySensor.checkLowTemperature, HumiditySensor.checkHighHumidity,
      HumiditySensor.checkLowHumidity, sensorHotDry, sensorQ]
  have e : (sensorHotDry.alarmCheck fmt2).sensor.alarmHighTemperatureSent = true := by
    norm_num [HumiditySensor.alarmCheck, HumiditySensor.checkHighTemperature,
      HumiditySensor.checkLowTemperature, HumiditySensor.checkHighHumidity,
      HumiditySensor.checkLowHumidity, sensorHotDry, sensorQ]
  ⟨h, (alarmCheck_rearm fmt2 sensorHotDry h).1, ⟨rfl, e⟩,
    (alarmCheck_rearm fmt2 sensorHotDry h).2.1 ⟨rfl, e⟩⟩

/-! ## Lemmas on `alarmFailed` followed by `alarmCheck` -/

section RearmLemmas

variable {α : Type} [Add α] [Sub α] [LT α] [DecidableRel (fun a b : α => a < b)]

/-- After `alarmCheck` and `alarmFailed` the block decides as it did at the first call, unless
its alarm was latched, active and violated at that call. -/
theorem firesHighTemperature_afterFailed (fmt : α → String) (s : HumiditySensor α)
    (h : ¬ (s.alarmHighTemperatureSent = true ∧ s.alarmHighTemperatureActive = true ∧
      s.temperatureWork > s.alarmHighTemperature)) :
    (s.alarmCheck fmt).sensor.alarmFailed.firesHighTemperature = s.firesHighTemperature := by
  simp only [alarmCheck_eq]
  unfold HumiditySensor.firesHighTemperature HumiditySensor.alarmFailed
  dsimp only
  cases hs : s.alarmHighTemperatureSent <;> cases ha : s.alarmHighTemperatureActive <;>
    by_cases hv : s.temperatureWork > s.alarmHighTemperature <;> simp_all

/-- After `alarmCheck` and `alarmFailed` the block decides as it did at the first call, unless
its alarm was latched, active and violated at that call. -/
theorem firesLowTemperature_afterFailed (fmt : α → String) (s : HumiditySensor α)
    (h : ¬ (s.alarmLowTemperatureSent = true ∧ s.alarmLowTemperatureActive = true ∧
      s.temperatureWork < s.alarmLowTemperature)) :
    (s.alarmCheck fmt).sensor.alarmFailed.firesLowTemperature = s.firesLowTemperature := by
  simp only [alarmCheck_eq]
  unfold HumiditySensor.firesLowTemperature HumiditySensor.alarmFailed
  dsimp only
  cases hs : s.alarmLowTemperatureSent <;> cases ha : s.alarmLowTemperatureActive <;>
    by_cases hv : s.temperatureWork < s.alarmLowTemperature <;> simp_all

/-- After `alarmCheck` and `alarmFailed` the block decides as it did at the first call, unless
its alarm was latched, active and violated at that call. -/
theorem firesHighHumidity_afterFailed (fmt : α → String) (s : HumiditySensor α)
    (h : ¬ (s.alarmHighHumiditySent = true ∧ s.alarmHighHumidityActive = true ∧
      s.humidityWork > s.alarmHighHumidity)) :
    (s.alarmCheck fmt).sensor.alarmFailed.firesHighHumidity = s.firesHighHumidity := by
  simp only [alarmCheck_eq]
  unfold HumiditySensor.firesHighHumidity HumiditySensor.alarmFailed
  dsimp only
  cases hs : s.alarmHighHumiditySent <;> cases ha : s.alarmHighHumidityActive <;>
    by_cases hv : s.humidityWork > s.alarmHighHumidity <;> simp_all

/-- After `alarmCheck` and `alarmFailed` the block decides as it did at the first call, unless
its alarm was latched, active and violated at that call. -/
theorem firesLowHumidity_afterFailed (fmt : α → String) (s : HumiditySensor α)
    (h : ¬ (s.alarmLowHumiditySent = true ∧ s.alarmLowHumidityActive = true ∧
      s.humidityWork < s.alarmLowHumidity)) :
    (s.alarmCheck fmt).sensor.alarmFailed.firesLowHumidity = s.firesLowHumidity := by
  simp only [alarmCheck_eq]
  unfold HumiditySensor.firesLowHumidity HumiditySensor.alarmFailed
  dsimp only
  cases hs : s.alarmLowHumiditySent <;> cases ha : s.alarmLowHumidityActive <;>
    by_cases hv : s.humidityWork < s.alarmLowHumidity <;> simp_all

end RearmLemmas

/-- C11 (re-armed text), as amended. When no alarm is, before the first call, at once latched,
active and violated, `alarmCheck`, then `alarmFailed`, then `alarmCheck` again on the sensor as
it is gives in the second call exactly the text of the first call. -/
theorem alarmCheck_rearm_text {α : Type} [Add α] [Sub α] [LT α]
    [DecidableRel (fun a b : α => a < b)] (fmt : α → String) (s : HumiditySensor α)
    (hHighTemperature : ¬ (s.alarmHighTemperatureSent = true ∧ s.alarmHighTemperatureActive = true ∧
      s.temperatureWork > s.alarmHighTemperature))
    (hLowTemperature : ¬ (s.alarmLowTemperatureSent = true ∧ s.alarmLowTemperatureActive = true ∧
      s.temperatureWork < s.alarmLowTemperature))
    (hHighHumidity : ¬ (s.alarmHighHumiditySent = true ∧ s.alarmHighHumidityActive = true ∧
      s.humidityWork > s.alarmHighHumidity))
    (hLowHumidity : ¬ (s.alarmLowHumiditySent = true ∧ s.alarmLowHumidityActive = true ∧
      s.humidityWork < s.alarmLowHumidity)) :
    ((s.alarmCheck fmt).sensor.alarmFailed.alarmCheck fmt).responce
      = (s.alarmCheck fmt).responce := by
  have e1 := firesHighTemperature_afterFailed fmt s hHighTemperature
  have e2 := firesLowTemperature_afterFailed fmt s hLowTemperature
  have e3 := firesHighHumidity_afterFailed fmt s hHighHumidity
  have e4 := firesLowHumidity_afterFailed fmt s hLowHumidity
  rw [alarmCheck_eq fmt (s.alarmCheck fmt).sensor.alarmFailed, e1, e2, e3, e4]
  simp only [alarmCheck_eq]
  rfl

/-- C11, witness: on `sensorHotDry` all latches are clear before the first call, and the text
of the second call is the text of the first. -/
theorem alarmCheck_rearm_text_witness :
    (sensorHotDry.alarmCheck fmt2).sendAlarm = true ∧
    ((sensorHotDry.alarmCheck fmt2).sensor.alarmFailed.alarmCheck fmt2).responce
      = (sensorHotDry.alarmCheck fmt2).responce :=
  have h : (sensorHotDry.alarmCheck fmt2).sendAlarm = true := by
    norm_num [HumiditySensor.alarmCheck, HumiditySensor.checkHighTemperature,
      HumiditySensor.checkLowTemperature, HumiditySensor.checkHighHumidity,
      HumiditySensor.checkLowHumidity, sensorHotDry, sensorQ]
  ⟨h, alarmCheck_rearm_text fmt2 sensorHotDry (by simp [sensorHotDry, sensorQ])
    (by simp [sensorHotDry, sensorQ]) (by simp [sensorHotDry, sensorQ])
    (by simp [sensorHotDry, sensorQ])⟩

/-- C11, counterexample to the claim as stated: on `sensorLatchedHotDry` the high temperature
alarm is latched and still violated, so the first call writes the low humidity clause only;
after `alarmFailed` the second call writes the high temperature clause too. -/
theorem alarmCheck_rearm_text_counterexample :
    (sensorLatchedHotDry.alarmCheck fmt2).sendAlarm = true ∧
    (sensorLatchedHotDry.alarmCheck fmt2).responce = "Alarm : Low Humidity=15.00(20.00)" ∧
    ((sensorLatchedHotDry.alarmCheck fmt2).sensor.alarmFailed.alarmCheck fmt2).responce
      = "Alarm : High Temperature=31.00(30.00) : Low Humidity=15.00(20.00)" ∧
    ((sensorLatchedHotDry.alarmCheck fmt2).sensor.alarmFailed.alarmCheck fmt2).responce
      ≠ (sensorLatchedHotDry.alarmCheck fmt2).responce := by
  have h1 : sensorLatchedHotDry.alarmCheck fmt2 =
      { sendAlarm := true
        responce := "Alarm : Low Humidity=15.00(20.00)"
        sensor := { sensorLatchedHotDry with alarmLowHumiditySent := true } } := by
    norm_num [HumiditySensor.alarmCheck, HumiditySensor.checkHighTemperature,
      HumiditySensor.checkLowTemperature, HumiditySensor.checkHighHumidity,
      HumiditySensor.checkLowHumidity, sensorLatchedHotDry, sensorHotDry, sensorQ]
    decide
  have h2 : ((sensorLatchedHotDry.alarmCheck fmt2).sensor.alarmFailed.alarmCheck fmt2).responce
      = "Alarm : High Temperature=31.00(30.00) : Low Humidity=15.00(20.00)" := by
    rw [h1]
    norm_num [HumiditySensor.alarmCheck, HumiditySensor.checkHighTemperature,
      HumiditySensor.checkLowTemperature, HumiditySensor.checkHighHumidity,
      HumiditySensor.checkLowHumidity, HumiditySensor.alarmFailed, sensorLatchedHotDry,
      sensorHotDry, sensorQ]
    decide
  refine ⟨by rw [h1], by rw [h1], h2, ?_⟩
  rw [h2, h1]
  decide

/-- C12 (boundary setter). After `setAlarmLevels` each of the four levels and of the four
active flags is the argument of the same name, the four latches are clear and the other eleven
members are unchanged; called with the levels and flags the sensor already has, it does what
`alarmFailed` does: it clears the four latches and changes nothing else. -/
theorem setAlarmLevels_frame {α : Type} (s : HumiditySensor α)
    (highTemperature : α) (highTemperatureActive : Bool)
    (lowTemperature : α) (lowTemperatureActive : Bool)
    (highHumidity : α) (highHumidityActive : Bool)
    (lowHumidity : α) (lowHumidityActive : Bool) :
    (s.setAlarmLevels highTemperature highTemperatureActive lowTemperature lowTemperatureActive
      highHumidity highHumidityActive lowHumidity lowHumidityActive).alarmHighTemperature =
          highTemperature ∧
    (s.setAlarmLevels highTemperature highTemperatureActive lowTemperature lowTemperatureActive
      highHumidity highHumidityActive lowHumidity lowHumidityActive).alarmHighTemperatureActive =
          highTemperatureActive ∧
    (s.setAlarmLevels highTemperature highTemperatureActive lowTemperature lowTemperatureActive
      highHumidity highHumidityActive lowHumidity lowHumidityActive).alarmLowTemperature =
          lowTemperature ∧
    (s.setAlarmLevels highTemperature highTemperatureActive lowTemperature lowTemperatureActive
      highHumidity highHumidityActive lowHumidity lowHumidityActive).alarmLowTemperatureActive =
          lowTemperatureActive ∧
    (s.setAlarmLevels highTemperature highTemperatureActive lowTemperature lowTemperatureActive
      highHumidity highHumidityActive lowHumidity lowHumidityActive).alarmHighHumidity =
          highHumidity ∧
    (s.setAlarmLevels highTemperature highTemperatureActive lowTemperature lowTemperatureActive
      highHumidity highHumidityActive lowHumidity lowHumidityActive).alarmHighHumidityActive =
          highHumidityActive ∧
    (s.setAlarmLevels highTemperature highTemperatureActive lowTemperature lowTemperatureActive
      highHumidity highHumidityActive lowHumidity lowHumidityActive).alarmLowHumidity = lowHumidity
          ∧
    (s.setAlarmLevels highTemperature highTemperatureActive lowTemperature lowTemperatureActive
      highHumidity highHumidityActive lowHumidity lowHumidityActive).alarmLowHumidityActive =
          lowHumidityActive ∧
    (s.setAlarmLevels highTemperature highTemperatureActive lowTemperature lowTemperatureActive
      highHumidity highHumidityActive lowHumidity lowHumidityActive).alarmHighTemperatureSent =
          false ∧
    (s.setAlarmLevels highTemperature highTemperatureActive lowTemperature lowTemperatureActive
      highHumidity highHumidityActive lowHumidity lowHumidityActive).alarmLowTemperatureSent =
          false ∧
    (s.setAlarmLevels highTemperature highTemperatureActive lowTemperature lowTemperatureActive
      highHumidity highHumidityActive lowHumidity lowHumidityActive).alarmHighHumiditySent = false ∧
    (s.setAlarmLevels highTemperature highTemperatureActive lowTemperature lowTemperatureActive
      highHumidity highHumidityActive lowHumidity lowHumidityActive).alarmLowHumiditySent = false ∧
    (s.setAlarmLevels highTemperature highTemperatureActive lowTemperature lowTemperatureActive
      highHumidity highHumidityActive lowHumidity lowHumidityActive).valueSendTime =
          s.valueSendTime ∧
    (s.setAlarmLevels highTemperature highTemperatureActive lowTemperature lowTemperatureActive
      highHumidity highHumidityActive lowHumidity lowHumidityActive).temperatureDiffMax =
          s.temperatureDiffMax ∧
    (s.setAlarmLevels highTemperature highTemperatureActive lowTemperature lowTemperatureActive
      highHumidity highHumidityActive lowHumidity lowHumidityActive).temperatureOffset =
          s.temperatureOffset ∧
    (s.setAlarmLevels highTemperature highTemperatureActive lowTemperature lowTemperatureActive
      highHumidity highHumidityActive lowHumidity lowHumidityActive).humidityDiffMax =
          s.humidityDiffMax ∧
    (s.setAlarmLevels highTemperature highTemperatureActive lowTemperature lowTemperatureActive
      highHumidity highHumidityActive lowHumidity lowHumidityActive).humidityOffset =
          s.humidityOffset ∧
    (s.setAlarmLevels highTemperature highTemperatureActive lowTemperature lowTemperatureActive
      highHumidity highHumidityActive lowHumidity lowHumidityActive).temperatureWork =
          s.temperatureWork ∧
    (s.setAlarmLevels highTemperature highTemperatureActive lowTemperature lowTemperatureActive
      highHumidity highHumidityActive lowHumidity lowHumidityActive).humidityWork = s.humidityWork ∧
    (s.setAlarmLevels highTemperature highTemperatureActive lowTemperature lowTemperatureActive
      highHumidity highHumidityActive lowHumidity lowHumidityActive).temperatureSent =
          s.temperatureSent ∧
    (s.setAlarmLevels highTemperature highTemperatureActive lowTemperature lowTemperatureActive
      highHumidity highHumidityActive lowHumidity lowHumidityActive).humiditySent = s.humiditySent ∧
    (s.setAlarmLevels highTemperature highTemperatureActive lowTemperature lowTemperatureActive
      highHumidity highHumidityActive lowHumidity lowHumidityActive).alarmHystTemperature =
          s.alarmHystTemperature ∧
    (s.setAlarmLevels highTemperature highTemperatureActive lowTemperature lowTemperatureActive
      highHumidity highHumidityActive lowHumidity lowHumidityActive).alarmHystHumidity =
          s.alarmHystHumidity ∧
    s.setAlarmLevels s.alarmHighTemperature s.alarmHighTemperatureActive
      s.alarmLowTemperature s.alarmLowTemperatureActive
      s.alarmHighHumidity s.alarmHighHumidityActive
      s.alarmLowHumidity s.alarmLowHumidityActive = s.alarmFailed :=
  ⟨rfl, rfl, rfl, rfl, rfl, rfl, rfl, rfl, rfl, rfl, rfl, rfl, rfl, rfl, rfl, rfl, rfl, rfl,
    rfl, rfl, rfl, rfl, rfl, rfl⟩

/-! ## Lemmas on the latch events of `alarmCheck` -/

section EventLemmas

variable {α : Type} [Add α] [Sub α] [LT α] [DecidableRel (fun a b : α => a < b)]

theorem alarmCheck_latchHighTemperature (fmt : α → String) (s : HumiditySensor α) :
    (s.alarmCheck fmt).sensor.alarmHighTemperatureSent = s.nextHighTemperatureSent := by
  rw [alarmCheck_eq]

theorem alarmCheck_eventHighTemperature (fmt : α → String) (s : HumiditySensor α) :
    (!s.alarmHighTemperatureSent && (s.alarmCheck fmt).sensor.alarmHighTemperatureSent) =
        s.firesHighTemperature := by
  rw [alarmCheck_latchHighTemperature, eventHighTemperature_eq]

theorem alarmCheck_latchLowTemperature (fmt : α → String) (s : HumiditySensor α) :
    (s.alarmCheck fmt).sensor.alarmLowTemperatureSent = s.nextLowTemperatureSent := by
  rw [alarmCheck_eq]

theorem alarmCheck_eventLowTemperature (fmt : α → String) (s : HumiditySensor α) :
    (!s.alarmLowTemperatureSent && (s.alarmCheck fmt).sensor.alarmLowTemperatureSent) =
        s.firesLowTemperature := by
  rw [alarmCheck_latchLowTemperature, eventLowTemperature_eq]

theorem alarmCheck_latchHighHumidity (fmt : α → String) (s : HumiditySensor α) :
    (s.alarmCheck fmt).sensor.alarmHighHumiditySent = s.nextHighHumiditySent := by
  rw [alarmCheck_eq]

theorem alarmCheck_eventHighHumidity (fmt : α → String) (s : HumiditySensor α) :
    (!s.alarmHighHumiditySent && (s.alarmCheck fmt).sensor.alarmHighHumiditySent) =
        s.firesHighHumidity := by
  rw [alarmCheck_latchHighHumidity, eventHighHumidity_eq]

theorem alarmCheck_latchLowHumidity (fmt : α → String) (s : HumiditySensor α) :
    (s.alarmCheck fmt).sensor.alarmLowHumiditySent = s.nextLowHumiditySent := by
  rw [alarmCheck_eq]

theorem alarmCheck_eventLowHumidity (fmt : α → String) (s : HumiditySensor α) :
    (!s.alarmLowHumiditySent && (s.alarmCheck fmt).sensor.alarmLowHumiditySent) =
        s.firesLowHumidity := by
  rw [alarmCheck_latchLowHumidity, eventLowHumidity_eq]

/-- The text of `alarmCheck` in terms of the latch events of the call. -/
theorem alarmCheck_responce_events (fmt : α → String) (s : HumiditySensor α) :
    (s.alarmCheck fmt).responce =
      "Alarm" ++
      HumiditySensor.clauseIf
        (!s.alarmHighTemperatureSent && (s.alarmCheck fmt).sensor.alarmHighTemperatureSent)
        fmt "High Temperature" s.temperatureWork s.alarmHighTemperature ++
      HumiditySensor.clauseIf
        (!s.alarmLowTemperatureSent && (s.alarmCheck fmt).sensor.alarmLowTemperatureSent)
        fmt "Low Temperature" s.temperatureWork s.alarmLowTemperature ++
      HumiditySensor.clauseIf
        (!s.alarmHighHumiditySent && (s.alarmCheck fmt).sensor.alarmHighHumiditySent)
        fmt "High Humidity" s.humidityWork s.alarmHighHumidity ++
      HumiditySensor.clauseIf
        (!s.alarmLowHumiditySent && (s.alarmCheck fmt).sensor.alarmLowHumiditySent)
        fmt "Low Humidity" s.humidityWork s.alarmLowHumidity := by
  rw [alarmCheck_eventHighTemperature, alarmCheck_eventLowTemperature,
    alarmCheck_eventHighHumidity, alarmCheck_eventLowHumidity, alarmCheck_eq]

/-- A block that does not fire leaves no clause in the text. -/
theorem alarmCheck_responce_withoutHighTemperature (fmt : α → String) (s : HumiditySensor α)
    (hf : s.firesHighTemperature = false) :
    (s.alarmCheck fmt).responce =
      "Alarm" ++
      HumiditySensor.clauseIf
        (!s.alarmLowTemperatureSent && (s.alarmCheck fmt).sensor.alarmLowTemperatureSent)
        fmt "Low Temperature" s.temperatureWork s.alarmLowTemperature ++
      HumiditySensor.clauseIf
        (!s.alarmHighHumiditySent && (s.alarmCheck fmt).sensor.alarmHighHumiditySent)
        fmt "High Humidity" s.humidityWork s.alarmHighHumidity ++
      HumiditySensor.clauseIf
        (!s.alarmLowHumiditySent && (s.alarmCheck fmt).sensor.alarmLowHumiditySent)
        fmt "Low Humidity" s.humidityWork s.alarmLowHumidity := by
  rw [alarmCheck_responce_events, alarmCheck_eventHighTemperature, hf]
  simp [HumiditySensor.clauseIf]

/-- A block that does not fire leaves no clause in the text. -/
theorem alarmCheck_responce_withoutLowTemperature (fmt : α → String) (s : HumiditySensor α)
    (hf : s.firesLowTemperature = false) :
    (s.alarmCheck fmt).responce =
      "Alarm" ++
      HumiditySensor.clauseIf
        (!s.alarmHighTemperatureSent && (s.alarmCheck fmt).sensor.alarmHighTemperatureSent)
        fmt "High Temperature" s.temperatureWork s.alarmHighTemperature ++
      HumiditySensor.clauseIf
        (!s.alarmHighHumiditySent && (s.alarmCheck fmt).sensor.alarmHighHumiditySent)
        fmt "High Humidity" s.humidityWork s.alarmHighHumidity ++
      HumiditySensor.clauseIf
        (!s.alarmLowHumiditySent && (s.alarmCheck fmt).sensor.alarmLowHumiditySent)
        fmt "Low Humidity" s.humidityWork s.alarmLowHumidity := by
  rw [alarmCheck_responce_events, alarmCheck_eventLowTemperature, hf]
  simp [HumiditySensor.clauseIf]

/-- A block that does not fire leaves no clause in the text. -/
theorem alarmCheck_responce_withoutHighHumidity (fmt : α → String) (s : HumiditySensor α)
    (hf : s.firesHighHumidity = false) :
    (s.alarmCheck fmt).responce =
      "Alarm" ++
      HumiditySensor.clauseIf
        (!s.alarmHighTemperatureSent && (s.alarmCheck fmt).sensor.alarmHighTemperatureSent)
        fmt "High Temperature" s.temperatureWork s.alarmHighTemperature ++
      HumiditySensor.clauseIf
        (!s.alarmLowTemperatureSent && (s.alarmCheck fmt).sensor.alarmLowTemperatureSent)
        fmt "Low Temperature" s.temperatureWork s.alarmLowTemperature ++
      HumiditySensor.clauseIf
        (!s.alarmLowHumiditySent && (s.alarmCheck fmt).sensor.alarmLowHumiditySent)
        fmt "Low Humidity" s.humidityWork s.alarmLowHumidity := by
  rw [alarmCheck_responce_events, alarmCheck_eventHighHumidity, hf]
  simp [HumiditySensor.clauseIf]

/-- A block that does not fire leaves no clause in the text. -/
theorem alarmCheck_responce_withoutLowHumidity (fmt : α → String) (s : HumiditySensor α)
    (hf : s.firesLowHumidity = false) :
    (s.alarmCheck fmt).responce =
      "Alarm" ++
      HumiditySensor.clauseIf
        (!s.alarmHighTemperatureSent && (s.alarmCheck fmt).sensor.alarmHighTemperatureSent)
        fmt "High Temperature" s.temperatureWork s.alarmHighTemperature ++
      HumiditySensor.clauseIf
        (!s.alarmLowTemperatureSent && (s.alarmCheck fmt).sensor.alarmLowTemperatureSent)
        fmt "Low Temperature" s.temperatureWork s.alarmLowTemperature ++
      HumiditySensor.clauseIf
        (!s.alarmHighHumiditySent && (s.alarmCheck fmt).sensor.alarmHighHumiditySent)
        fmt "High Humidity" s.humidityWork s.alarmHighHumidity := by
  rw [alarmCheck_responce_events, alarmCheck_eventLowHumidity, hf]
  simp [HumiditySensor.clauseIf]

end EventLemmas

/-- C14 (send time does not go back), as amended. When the clock value read for the stamp is
not below `valueSendTime`, `valueSendTime` after `valueTimeToSend` is not below `valueSendTime`
before it, whatever the reading and the result. -/
theorem valueSendTime_monotone {α : Type} [Add α] [Sub α] [LT α]
    [DecidableRel (fun a b : α => a < b)]
    (ALWAYS_SEND_TIMEOUT clockCheck clockStamp : Int)
    (s : HumiditySensor α) (temperature humidity : α)
    (hclock : s.valueSendTime ≤ clockStamp) :
    s.valueSendTime ≤
      (s.valueTimeToSend ALWAYS_SEND_TIMEOUT clockCheck clockStamp temperature
        humidity).2.valueSendTime := by
  rcases valueTimeToSend_snd_cases ALWAYS_SEND_TIMEOUT clockCheck clockStamp s temperature
    humidity with e | e
  · rw [e]
    exact le_refl _
  · rw [e]
    exact hclock

/-- C14, witness: `sensorQ`, last sent at 1000, asked at 1010 with a reading of 25 degrees. -/
theorem valueSendTime_monotone_witness :
    sensorQ.valueSendTime ≤ (1010 : Int) ∧
    sensorQ.valueSendTime ≤ (sensorQ.valueTimeToSend 600 1010 1010 25 50).2.valueSendTime :=
  ⟨by decide, valueSendTime_monotone 600 1010 1010 sensorQ 25 50 (by decide)⟩

/-- C14, counterexample to the claim as stated: `sensorQ` was last sent at 1000; asked with the
clock at 500 and a reading of 25 degrees (5 above the last sent value), it sends and
`valueSendTime` becomes 500. -/
theorem valueSendTime_monotone_counterexample :
    (sensorQ.valueTimeToSend 600 500 500 25 50).1 = true ∧
    (sensorQ.valueTimeToSend 600 500 500 25 50).2.valueSendTime = 500 ∧
    (sensorQ.valueTimeToSend 600 500 500 25 50).2.valueSendTime < sensorQ.valueSendTime := by
  have h : sensorQ.valueTimeToSend 600 500 500 25 50 =
      (true, { sensorQ with
        temperatureWork := 25, humidityWork := 50, temperatureSent := 25, humiditySent := 50
        valueSendTime := 500 }) := by
    norm_num [HumiditySensor.valueTimeToSend, HumiditySensor.calibrate,
      HumiditySensor.recordSend, sensorQ]
  rw [h]
  exact ⟨rfl, rfl, by decide⟩

/-- C15 (latches are set only by `alarmCheck`). No call other than `alarmCheck`, that is none
of `valueTimeToSend`, `alarmFailed`, `setAlarmLevels`, `setAlarmHyst`, `setDiffToSend` and
`setValueOffset`, whatever its arguments, changes any of the four latches from false to
true. -/
theorem latch_set_only_by_alarmCheck {α : Type} [Add α] [Sub α] [LT α]
    [DecidableRel (fun a b : α => a < b)] (fmt : α → String) (ALWAYS_SEND_TIMEOUT : Int)
    (c : Call α) (s : HumiditySensor α) (hc : c ≠ Call.alarmCheck) :
    HumiditySensor.latchSet s (c.run fmt ALWAYS_SEND_TIMEOUT s) = false := by
  cases c with
  | valueTimeToSend clockCheck clockStamp temperature humidity =>
    simp only [Call.run]
    rcases valueTimeToSend_snd_cases ALWAYS_SEND_TIMEOUT clockCheck clockStamp s temperature
      humidity with e | e <;>
    · rw [e]
      simp [HumiditySensor.latchSet, HumiditySensor.calibrate, HumiditySensor.recordSend]
  | alarmCheck => exact absurd rfl hc
  | alarmFailed => simp [Call.run, HumiditySensor.latchSet, HumiditySensor.alarmFailed]
  | setAlarmLevels ht hta lt lta hh hha lh lha =>
    simp [Call.run, HumiditySensor.latchSet, HumiditySensor.setAlarmLevels]
  | setAlarmHyst a b => simp [Call.run, HumiditySensor.latchSet, HumiditySensor.setAlarmHyst]
  | setDiffToSend a b => simp [Call.run, HumiditySensor.latchSet, HumiditySensor.setDiffToSend]
  | setValueOffset a b =>
    simp [Call.run, HumiditySensor.latchSet, HumiditySensor.setValueOffset]

/-- C15, witness: a reading of 31 degrees and 15 percent passed to `valueTimeToSend` on
`sensorHotDry`, whose alarms are active with clear latches, sets no latch. -/
theorem latch_set_only_by_alarmCheck_witness :
    Call.valueTimeToSend 1010 1010 (31 : ℚ) 15 ≠ Call.alarmCheck ∧
    HumiditySensor.latchSet sensorHotDry
      ((Call.valueTimeToSend 1010 1010 (31 : ℚ) 15).run fmt2 600 sensorHotDry) = false :=
  ⟨fun h => Call.noConfusion h,
    latch_set_only_by_alarmCheck fmt2 600 (Call.valueTimeToSend 1010 1010 31 15) sensorHotDry
      (fun h => Call.noConfusion h)⟩

/-! ## Lemmas on calls -/

section CallLemmas

variable {α : Type} [Add α] [Sub α] [LT α] [DecidableRel (fun a b : α => a < b)]

/-- A call other than `alarmCheck`, `alarmFailed` and `setAlarmLevels` leaves the four latches
as they are. -/
theorem run_latches (fmt : α → String) (T : Int) (c : Call α) (s : HumiditySensor α)
    (h1 : c ≠ Call.alarmCheck) (h2 : c ≠ Call.alarmFailed) (h3 : c.isSetAlarmLevels = false) :
    (c.run fmt T s).alarmHighTemperatureSent = s.alarmHighTemperatureSent ∧
    (c.run fmt T s).alarmLowTemperatureSent = s.alarmLowTemperatureSent ∧
    (c.run fmt T s).alarmHighHumiditySent = s.alarmHighHumiditySent ∧
    (c.run fmt T s).alarmLowHumiditySent = s.alarmLowHumiditySent := by
  cases c with
  | valueTimeToSend clockCheck clockStamp temperature humidity =>
    simp only [Call.run]
    rcases valueTimeToSend_snd_cases T clockCheck clockStamp s temperature humidity
      with e | e <;>
    · rw [e]
      exact ⟨rfl, rfl, rfl, rfl⟩
  | alarmCheck => exact absurd rfl h1
  | alarmFailed => exact absurd rfl h2
  | setAlarmLevels ht hta lt lta hh hha lh lha => simp [Call.isSetAlarmLevels] at h3
  | setAlarmHyst a b => exact ⟨rfl, rfl, rfl, rfl⟩
  | setDiffToSend a b => exact ⟨rfl, rfl, rfl, rfl⟩
  | setValueOffset a b => exact ⟨rfl, rfl, rfl, rfl⟩

/-- A call other than `setAlarmLevels` leaves the four active flags as they are. -/
theorem run_active (fmt : α → String) (T : Int) (c : Call α) (s : HumiditySensor α)
    (h : c.isSetAlarmLevels = false) :
    (c.run fmt T s).alarmHighTemperatureActive = s.alarmHighTemperatureActive ∧
    (c.run fmt T s).alarmLowTemperatureActive = s.alarmLowTemperatureActive ∧
    (c.run fmt T s).alarmHighHumidityActive = s.alarmHighHumidityActive ∧
    (c.run fmt T s).alarmLowHumidityActive = s.alarmLowHumidityActive := by
  cases c with
  | valueTimeToSend clockCheck clockStamp temperature humidity =>
    simp only [Call.run]
    rcases valueTimeToSend_snd_cases T clockCheck clockStamp s temperature humidity
      with e | e <;>
    · rw [e]
      exact ⟨rfl, rfl, rfl, rfl⟩
  | alarmCheck => simp [Call.run, alarmCheck_eq]
  | alarmFailed => exact ⟨rfl, rfl, rfl, rfl⟩
  | setAlarmLevels ht hta lt lta hh hha lh lha => simp [Call.isSetAlarmLevels] at h
  | setAlarmHyst a b => exact ⟨rfl, rfl, rfl, rfl⟩
  | setDiffToSend a b => exact ⟨rfl, rfl, rfl, rfl⟩
  | setValueOffset a b => exact ⟨rfl, rfl, rfl, rfl⟩

/-- A sequence of calls without `setAlarmLevels` leaves the four active flags as they are. -/
theorem runAll_active (fmt : α → String) (T : Int) (calls : List (Call α))
    (s : HumiditySensor α) (h : ∀ c ∈ calls, c.isSetAlarmLevels = false) :
    (Call.runAll fmt T calls s).alarmHighTemperatureActive = s.alarmHighTemperatureActive ∧
    (Call.runAll fmt T calls s).alarmLowTemperatureActive = s.alarmLowTemperatureActive ∧
    (Call.runAll fmt T calls s).alarmHighHumidityActive = s.alarmHighHumidityActive ∧
    (Call.runAll fmt T calls s).alarmLowHumidityActive = s.alarmLowHumidityActive := by
  induction calls generalizing s with
  | nil => exact ⟨rfl, rfl, rfl, rfl⟩
  | cons c cs ih =>
    have hc := run_active fmt T c s (h c (List.mem_cons_self c cs))
    have hcs := ih (c.run fmt T s) (fun d hd => h d (List.mem_cons_of_mem c hd))
    simp only [Call.runAll]
    exact ⟨hcs.1.trans hc.1, hcs.2.1.trans hc.2.1, hcs.2.2.1.trans hc.2.2.1,
      hcs.2.2.2.trans hc.2.2.2⟩

/-- With the four alarms inactive `alarmCheck` returns false and the text "Alarm". -/
theorem alarmCheck_all_inactive (fmt : α → String) (s : HumiditySensor α)
    (h1 : s.alarmHighTemperatureActive = false) (h2 : s.alarmLowTemperatureActive = false)
    (h3 : s.alarmHighHumidityActive = false) (h4 : s.alarmLowHumidityActive = false) :
    (s.alarmCheck fmt).sendAlarm = false ∧ (s.alarmCheck fmt).responce = "Alarm" := by
  have f1 : s.firesHighTemperature = false := by simp [HumiditySensor.firesHighTemperature, h1]
  have f2 : s.firesLowTemperature = false := by simp [HumiditySensor.firesLowTemperature, h2]
  have f3 : s.firesHighHumidity = false := by simp [HumiditySensor.firesHighHumidity, h3]
  have f4 : s.firesLowHumidity = false := by simp [HumiditySensor.firesLowHumidity, h4]
  rw [alarmCheck_eq, f1, f2, f3, f4]
  simp [HumiditySensor.clauseIf]

end CallLemmas

/-- C16 (latches are cleared only by hysteresis, failure acknowledgment or a new setting of the
levels), as amended. For every call and every latch: when the latch is true before the call and
false after it, the call is `alarmFailed`, or it is `setAlarmLevels`, or it is `alarmCheck` and
the working value is beyond the hysteresis band (below level minus hysteresis for a high alarm,
above level plus hysteresis for a low alarm). -/
theorem latch_cleared_only_by {α : Type} [Add α] [Sub α] [LT α]
    [DecidableRel (fun a b : α => a < b)] (fmt : α → String) (ALWAYS_SEND_TIMEOUT : Int)
    (c : Call α) (s : HumiditySensor α) :
    (s.alarmHighTemperatureSent = true →
      (c.run fmt ALWAYS_SEND_TIMEOUT s).alarmHighTemperatureSent = false →
      c = Call.alarmFailed ∨ c.isSetAlarmLevels = true ∨
        (c = Call.alarmCheck ∧
          s.temperatureWork < s.alarmHighTemperature - s.alarmHystTemperature)) ∧
    (s.alarmLowTemperatureSent = true →
      (c.run fmt ALWAYS_SEND_TIMEOUT s).alarmLowTemperatureSent = false →
      c = Call.alarmFailed ∨ c.isSetAlarmLevels = true ∨
        (c = Call.alarmCheck ∧
          s.temperatureWork > s.alarmLowTemperature + s.alarmHystTemperature)) ∧
    (s.alarmHighHumiditySent = true →
      (c.run fmt ALWAYS_SEND_TIMEOUT s).alarmHighHumiditySent = false →
      c = Call.alarmFailed ∨ c.isSetAlarmLevels = true ∨
        (c = Call.alarmCheck ∧
          s.humidityWork < s.alarmHighHumidity - s.alarmHystHumidity)) ∧
    (s.alarmLowHumiditySent = true →
      (c.run fmt ALWAYS_SEND_TIMEOUT s).alarmLowHumiditySent = false →
      c = Call.alarmFailed ∨ c.isSetAlarmLevels = true ∨
        (c = Call.alarmCheck ∧
          s.humidityWork > s.alarmLowHumidity + s.alarmHystHumidity)) := by
  refine ⟨?_, ?_, ?_, ?_⟩
  · intro hs hr
    by_cases h1 : c = Call.alarmCheck
    · subst h1
      refine Or.inr (Or.inr ⟨rfl, ?_⟩)
      simp only [Call.run, alarmCheck_latchHighTemperature, HumiditySensor.nextHighTemperatureSent,
          hs,
        Bool.true_or] at hr
      by_contra hv
      split_ifs at hr
    · by_cases h2 : c = Call.alarmFailed
      · exact Or.inl h2
      · refine Or.inr (Or.inl ?_)
        by_contra h3
        have hl := (run_latches fmt ALWAYS_SEND_TIMEOUT c s h1 h2 (by simpa using h3)).1
        rw [hl, hs] at hr
        exact Bool.noConfusion hr
  · intro hs hr
    by_cases h1 : c = Call.alarmCheck
    · subst h1
      refine Or.inr (Or.inr ⟨rfl, ?_⟩)
      simp only [Call.run, alarmCheck_latchLowTemperature, HumiditySensor.nextLowTemperatureSent,
          hs,
        Bool.true_or] at hr
      by_contra hv
      split_ifs at hr
    · by_cases h2 : c = Call.alarmFailed
      · exact Or.inl h2
      · refine Or.inr (Or.inl ?_)
        by_contra h3
        have hl := (run_latches fmt ALWAYS_SEND_TIMEOUT c s h1 h2 (by simpa using h3)).2.1
        rw [hl, hs] at hr
        exact Bool.noConfusion hr
  · intro hs hr
    by_cases h1 : c = Call.alarmCheck
    · subst h1
      refine Or.inr (Or.inr ⟨rfl, ?_⟩)
      simp only [Call.run, alarmCheck_latchHighHumidity, HumiditySensor.nextHighHumiditySent, hs,
        Bool.true_or] at hr
      by_contra hv
      split_ifs at hr
    · by_cases h2 : c = Call.alarmFailed
      · exact Or.inl h2
      · refine Or.inr (Or.inl ?_)
        by_contra h3
        have hl := (run_latches fmt ALWAYS_SEND_TIMEOUT c s h1 h2 (by simpa using h3)).2.2.1
        rw [hl, hs] at hr
        exact Bool.noConfusion hr
  · intro hs hr
    by_cases h1 : c = Call.alarmCheck
    · subst h1
      refine Or.inr (Or.inr ⟨rfl, ?_⟩)
      simp only [Call.run, alarmCheck_latchLowHumidity, HumiditySensor.nextLowHumiditySent, hs,
        Bool.true_or] at hr
      by_contra hv
      split_ifs at hr
    · by_cases h2 : c = Call.alarmFailed
      · exact Or.inl h2
      · refine Or.inr (Or.inl ?_)
        by_contra h3
        have hl := (run_latches fmt ALWAYS_SEND_TIMEOUT c s h1 h2 (by simpa using h3)).2.2.2
        rw [hl, hs] at hr
        exact Bool.noConfusion hr

/-- C16, witness: on `sensorCooled` the high temperature latch is set and `alarmCheck` clears
it; the working temperature 24 is below 30 - 5. -/
theorem latch_cleared_only_by_witness :
    sensorCooled.alarmHighTemperatureSent = true ∧
    (Call.alarmCheck.run fmt2 600 sensorCooled).alarmHighTemperatureSent = false ∧
    ((Call.alarmCheck : Call ℚ) = Call.alarmFailed ∨
      (Call.alarmCheck : Call ℚ).isSetAlarmLevels = true ∨
      ((Call.alarmCheck : Call ℚ) = Call.alarmCheck ∧
        sensorCooled.temperatureWork
          < sensorCooled.alarmHighTemperature - sensorCooled.alarmHystTemperature)) :=
  have hr : (Call.alarmCheck.run fmt2 600 sensorCooled).alarmHighTemperatureSent = false := by
    norm_num [Call.run, HumiditySensor.alarmCheck, HumiditySensor.checkHighTemperature,
      HumiditySensor.checkLowTemperature, HumiditySensor.checkHighHumidity,
      HumiditySensor.checkLowHumidity, sensorCooled, sensorQ]
  ⟨rfl, hr, (latch_cleared_only_by fmt2 600 Call.alarmCheck sensorCooled).1 rfl hr⟩

/-- C16, counterexample to the claim as stated: on `sensorLatchedHotDry` the high temperature
latch is set and the working temperature 31 is above the level; `setAlarmLevels`, called with
the levels and flags already configured, clears the latch. -/
theorem latch_cleared_only_by_counterexample :
    sensorLatchedHotDry.alarmHighTemperatureSent = true ∧
    (sensorLatchedHotDry.setAlarmLevels 30 true 10 false 80 false 20 true).alarmHighTemperatureSent
      = false ∧
    ¬ (sensorLatchedHotDry.temperatureWork
      < sensorLatchedHotDry.alarmHighTemperature - sensorLatchedHotDry.alarmHystTemperature) := by
  refine ⟨rfl, rfl, ?_⟩
  norm_num [sensorLatchedHotDry, sensorHotDry, sensorQ]

/-- C17 (a freshly constructed sensor has all alarms disabled). On a sensor made by the default
constructor, whatever the memory held for the members it does not assign (the alarm levels
among them), after any sequence of calls that holds no `setAlarmLevels`, `alarmCheck` returns
false and the text is exactly "Alarm". -/
theorem construct_alarms_disabled {α : Type} [Add α] [Sub α] [LT α]
    [DecidableRel (fun a b : α => a < b)] [OfScientific α] [OfNat α 0] [OfNat α 2]
    (fmt : α → String) (ALWAYS_SEND_TIMEOUT : Int) (memory : HumiditySensor α)
    (calls : List (Call α)) (h : ∀ c ∈ calls, c.isSetAlarmLevels = false) :
    ((Call.runAll fmt ALWAYS_SEND_TIMEOUT calls
      (HumiditySensor.construct memory)).alarmCheck fmt).sendAlarm = false ∧
    ((Call.runAll fmt ALWAYS_SEND_TIMEOUT calls
      (HumiditySensor.construct memory)).alarmCheck fmt).responce = "Alarm" := by
  obtain ⟨h1, h2, h3, h4⟩ :=
    runAll_active fmt ALWAYS_SEND_TIMEOUT calls (HumiditySensor.construct memory) h
  exact alarmCheck_all_inactive fmt _ (h1.trans rfl) (h2.trans rfl) (h3.trans rfl)
    (h4.trans rfl)

/-- C17, witness: the constructor on a memory holding the levels 30, 10, 80 and 20, followed by
the calls of `callsWithoutLevels`, which end with a reading of -20 degrees and 5 percent. -/
theorem construct_alarms_disabled_witness :
    (∀ c ∈ callsWithoutLevels, c.isSetAlarmLevels = false) ∧
    ((Call.runAll fmt2 600 callsWithoutLevels
      (HumiditySensor.construct sensorQ)).alarmCheck fmt2).sendAlarm = false ∧
    ((Call.runAll fmt2 600 callsWithoutLevels
      (HumiditySensor.construct sensorQ)).alarmCheck fmt2).responce = "Alarm" :=
  have h : ∀ c ∈ callsWithoutLevels, c.isSetAlarmLevels = false := by
    simp [callsWithoutLevels, Call.isSetAlarmLevels]
  ⟨h, construct_alarms_disabled fmt2 600 sensorQ callsWithoutLevels h⟩

/-- C18 (silent hold). In exact arithmetic, for each of the four alarms: when the working value
is inside the hysteresis band (above level minus hysteresis and not above the level for a high
alarm, not below the level and below level plus hysteresis for a low alarm), `alarmCheck` leaves
the latch as it was and the text holds no clause for the alarm (it is "Alarm" followed by the
clauses of the other three alarms, each present when its latch went from clear to set); and when
the value violates the level with the latch already set, the latch stays set and the text holds
no clause for the alarm. -/
theorem alarmCheck_silent_hold {α : Type} [LinearOrderedAddCommGroup α] (fmt : α → String)
    (s : HumiditySensor α) :
    (s.alarmHighTemperature - s.alarmHystTemperature < s.temperatureWork →
        s.temperatureWork ≤ s.alarmHighTemperature →
      (s.alarmCheck fmt).sensor.alarmHighTemperatureSent = s.alarmHighTemperatureSent ∧
      (s.alarmCheck fmt).responce =
        "Alarm" ++
        HumiditySensor.clauseIf
          (!s.alarmLowTemperatureSent && (s.alarmCheck fmt).sensor.alarmLowTemperatureSent)
          fmt "Low Temperature" s.temperatureWork s.alarmLowTemperature ++
        HumiditySensor.clauseIf
          (!s.alarmHighHumiditySent && (s.alarmCheck fmt).sensor.alarmHighHumiditySent)
          fmt "High Humidity" s.humidityWork s.alarmHighHumidity ++
        HumiditySensor.clauseIf
          (!s.alarmLowHumiditySent && (s.alarmCheck fmt).sensor.alarmLowHumiditySent)
          fmt "Low Humidity" s.humidityWork s.alarmLowHumidity) ∧
    (s.temperatureWork > s.alarmHighTemperature → s.alarmHighTemperatureSent = true →
      (s.alarmCheck fmt).sensor.alarmHighTemperatureSent = true ∧
      (s.alarmCheck fmt).responce =
        "Alarm" ++
        HumiditySensor.clauseIf
          (!s.alarmLowTemperatureSent && (s.alarmCheck fmt).sensor.alarmLowTemperatureSent)
          fmt "Low Temperature" s.temperatureWork s.alarmLowTemperature ++
        HumiditySensor.clauseIf
          (!s.alarmHighHumiditySent && (s.alarmCheck fmt).sensor.alarmHighHumiditySent)
          fmt "High Humidity" s.humidityWork s.alarmHighHumidity ++
        HumiditySensor.clauseIf
          (!s.alarmLowHumiditySent && (s.alarmCheck fmt).sensor.alarmLowHumiditySent)
          fmt "Low Humidity" s.humidityWork s.alarmLowHumidity) ∧
    (s.alarmLowTemperature ≤ s.temperatureWork → s.temperatureWork < s.alarmLowTemperature +
        s.alarmHystTemperature →
      (s.alarmCheck fmt).sensor.alarmLowTemperatureSent = s.alarmLowTemperatureSent ∧
      (s.alarmCheck fmt).responce =
        "Alarm" ++
        HumiditySensor.clauseIf
          (!s.alarmHighTemperatureSent && (s.alarmCheck fmt).sensor.alarmHighTemperatureSent)
          fmt "High Temperature" s.temperatureWork s.alarmHighTemperature ++
        HumiditySensor.clauseIf
          (!s.alarmHighHumiditySent && (s.alarmCheck fmt).sensor.alarmHighHumiditySent)
          fmt "High Humidity" s.humidityWork s.alarmHighHumidity ++
        HumiditySensor.clauseIf
          (!s.alarmLowHumiditySent && (s.alarmCheck fmt).sensor.alarmLowHumiditySent)
          fmt "Low Humidity" s.humidityWork s.alarmLowHumidity) ∧
    (s.temperatureWork < s.alarmLowTemperature → s.alarmLowTemperatureSent = true →
      (s.alarmCheck fmt).sensor.alarmLowTemperatureSent = true ∧
      (s.alarmCheck fmt).responce =
        "Alarm" ++
        HumiditySensor.clauseIf
          (!s.alarmHighTemperatureSent && (s.alarmCheck fmt).sensor.alarmHighTemperatureSent)
          fmt "High Temperature" s.temperatureWork s.alarmHighTemperature ++
        HumiditySensor.clauseIf
          (!s.alarmHighHumiditySent && (s.alarmCheck fmt).sensor.alarmHighHumiditySent)
          fmt "High Humidity" s.humidityWork s.alarmHighHumidity ++
        HumiditySensor.clauseIf
          (!s.alarmLowHumiditySent && (s.alarmCheck fmt).sensor.alarmLowHumiditySent)
          fmt "Low Humidity" s.humidityWork s.alarmLowHumidity) ∧
    (s.alarmHighHumidity - s.alarmHystHumidity < s.humidityWork →
        s.humidityWork ≤ s.alarmHighHumidity →
      (s.alarmCheck fmt).sensor.alarmHighHumiditySent = s.alarmHighHumiditySent ∧
      (s.alarmCheck fmt).responce =
        "Alarm" ++
        HumiditySensor.clauseIf
          (!s.alarmHighTemperatureSent && (s.alarmCheck fmt).sensor.alarmHighTemperatureSent)
          fmt "High Temperature" s.temperatureWork s.alarmHighTemperature ++
        HumiditySensor.clauseIf
          (!s.alarmLowTemperatureSent && (s.alarmCheck fmt).sensor.alarmLowTemperatureSent)
          fmt "Low Temperature" s.temperatureWork s.alarmLowTemperature ++
        HumiditySensor.clauseIf
          (!s.alarmLowHumiditySent && (s.alarmCheck fmt).sensor.alarmLowHumiditySent)
          fmt "Low Humidity" s.humidityWork s.alarmLowHumidity) ∧
    (s.humidityWork > s.alarmHighHumidity → s.alarmHighHumiditySent = true →
      (s.alarmCheck fmt).sensor.alarmHighHumiditySent = true ∧
      (s.alarmCheck fmt).responce =
        "Alarm" ++
        HumiditySensor.clauseIf
          (!s.alarmHighTemperatureSent && (s.alarmCheck fmt).sensor.alarmHighTemperatureSent)
          fmt "High Temperature" s.temperatureWork s.alarmHighTemperature ++
        HumiditySensor.clauseIf
          (!s.alarmLowTemperatureSent && (s.alarmCheck fmt).sensor.alarmLowTemperatureSent)
          fmt "Low Temperature" s.temperatureWork s.alarmLowTemperature ++
        HumiditySensor.clauseIf
          (!s.alarmLowHumiditySent && (s.alarmCheck fmt).sensor.alarmLowHumiditySent)
          fmt "Low Humidity" s.humidityWork s.alarmLowHumidity) ∧
    (s.alarmLowHumidity ≤ s.humidityWork → s.humidityWork < s.alarmLowHumidity +
        s.alarmHystHumidity →
      (s.alarmCheck fmt).sensor.alarmLowHumiditySent = s.alarmLowHumiditySent ∧
      (s.alarmCheck fmt).responce =
        "Alarm" ++
        HumiditySensor.clauseIf
          (!s.alarmHighTemperatureSent && (s.alarmCheck fmt).sensor.alarmHighTemperatureSent)
          fmt "High Temperature" s.temperatureWork s.alarmHighTemperature ++
        HumiditySensor.clauseIf
          (!s.alarmLowTemperatureSent && (s.alarmCheck fmt).sensor.alarmLowTemperatureSent)
          fmt "Low Temperature" s.temperatureWork s.alarmLowTemperature ++
        HumiditySensor.clauseIf
          (!s.alarmHighHumiditySent && (s.alarmCheck fmt).sensor.alarmHighHumiditySent)
          fmt "High Humidity" s.humidityWork s.alarmHighHumidity) ∧
    (s.humidityWork < s.alarmLowHumidity → s.alarmLowHumiditySent = true →
      (s.alarmCheck fmt).sensor.alarmLowHumiditySent = true ∧
      (s.alarmCheck fmt).responce =
        "Alarm" ++
        HumiditySensor.clauseIf
          (!s.alarmHighTemperatureSent && (s.alarmCheck fmt).sensor.alarmHighTemperatureSent)
          fmt "High Temperature" s.temperatureWork s.alarmHighTemperature ++
        HumiditySensor.clauseIf
          (!s.alarmLowTemperatureSent && (s.alarmCheck fmt).sensor.alarmLowTemperatureSent)
          fmt "Low Temperature" s.temperatureWork s.alarmLowTemperature ++
        HumiditySensor.clauseIf
          (!s.alarmHighHumiditySent && (s.alarmCheck fmt).sensor.alarmHighHumiditySent)
          fmt "High Humidity" s.humidityWork s.alarmHighHumidity) := by
  refine ⟨?_, ?_, ?_, ?_, ?_, ?_, ?_, ?_⟩
  · intro hlo hhi
    have hB : ¬ s.temperatureWork > s.alarmHighTemperature := not_lt.mpr hhi
    have hH : ¬ s.temperatureWork < s.alarmHighTemperature - s.alarmHystTemperature :=
        not_lt.mpr (le_of_lt hlo)
    have hf : s.firesHighTemperature = false := by
      simp [HumiditySensor.firesHighTemperature, hB]
    refine ⟨?_, alarmCheck_responce_withoutHighTemperature fmt s hf⟩
    rw [alarmCheck_latchHighTemperature]
    simp [HumiditySensor.nextHighTemperatureSent, hB, hH]
  · intro hv hs
    have hf : s.firesHighTemperature = false := by
      simp [HumiditySensor.firesHighTemperature, hs]
    refine ⟨?_, alarmCheck_responce_withoutHighTemperature fmt s hf⟩
    rw [alarmCheck_latchHighTemperature]
    simp [HumiditySensor.nextHighTemperatureSent, hv, hs]
  · intro hlo hhi
    have hB : ¬ s.temperatureWork < s.alarmLowTemperature := not_lt.mpr hlo
    have hH : ¬ s.temperatureWork > s.alarmLowTemperature + s.alarmHystTemperature :=
        not_lt.mpr (le_of_lt hhi)
    have hf : s.firesLowTemperature = false := by
      simp [HumiditySensor.firesLowTemperature, hB]
    refine ⟨?_, alarmCheck_responce_withoutLowTemperature fmt s hf⟩
    rw [alarmCheck_latchLowTemperature]
    simp [HumiditySensor.nextLowTemperatureSent, hB, hH]
  · intro hv hs
    have hf : s.firesLowTemperature = false := by
      simp [HumiditySensor.firesLowTemperature, hs]
    refine ⟨?_, alarmCheck_responce_withoutLowTemperature fmt s hf⟩
    rw [alarmCheck_latchLowTemperature]
    simp [HumiditySensor.nextLowTemperatureSent, hv, hs]
  · intro hlo hhi
    have hB : ¬ s.humidityWork > s.alarmHighHumidity := not_lt.mpr hhi
    have hH : ¬ s.humidityWork < s.alarmHighHumidity - s.alarmHystHumidity :=
        not_lt.mpr (le_of_lt hlo)
    have hf : s.firesHighHumidity = false := by
      simp [HumiditySensor.firesHighHumidity, hB]
    refine ⟨?_, alarmCheck_responce_withoutHighHumidity fmt s hf⟩
    rw [alarmCheck_latchHighHumidity]
    simp [HumiditySensor.nextHighHumiditySent, hB, hH]
  · intro hv hs
    have hf : s.firesHighHumidity = false := by
      simp [HumiditySensor.firesHighHumidity, hs]
    refine ⟨?_, alarmCheck_responce_withoutHighHumidity fmt s hf⟩
    rw [alarmCheck_latchHighHumidity]
    simp [HumiditySensor.nextHighHumiditySent, hv, hs]
  · intro hlo hhi
    have hB : ¬ s.humidityWork < s.alarmLowHumidity := not_lt.mpr hlo
    have hH : ¬ s.humidityWork > s.alarmLowHumidity + s.alarmHystHumidity :=
        not_lt.mpr (le_of_lt hhi)
    have hf : s.firesLowHumidity = false := by
      simp [HumiditySensor.firesLowHumidity, hB]
    refine ⟨?_, alarmCheck_responce_withoutLowHumidity fmt s hf⟩
    rw [alarmCheck_latchLowHumidity]
    simp [HumiditySensor.nextLowHumiditySent, hB, hH]
  · intro hv hs
    have hf : s.firesLowHumidity = false := by
      simp [HumiditySensor.firesLowHumidity, hs]
    refine ⟨?_, alarmCheck_responce_withoutLowHumidity fmt s hf⟩
    rw [alarmCheck_latchLowHumidity]
    simp [HumiditySensor.nextLowHumiditySent, hv, hs]

/-- C18, witness: on `sensorLatched29`, 29 degrees with level 30, hysteresis 5 and the latch
set, `alarmCheck` keeps the latch; and on `sensorLatchedHotDry`, 31 degrees with the latch set,
the latch stays set. -/
theorem alarmCheck_silent_hold_witness :
    ((sensorLatched29.alarmCheck fmt2).sensor.alarmHighTemperatureSent
        = sensorLatched29.alarmHighTemperatureSent ∧
      sensorLatched29.alarmHighTemperatureSent = true) ∧
    (sensorLatchedHotDry.alarmCheck fmt2).sensor.alarmHighTemperatureSent = true :=
  have hlo : sensorLatched29.alarmHighTemperature - sensorLatched29.alarmHystTemperature
      < sensorLatched29.temperatureWork := by
    norm_num [sensorLatched29, sensorQ]
  have hhi : sensorLatched29.temperatureWork ≤ sensorLatched29.alarmHighTemperature := by
    decide
  have hv : sensorLatchedHotDry.temperatureWork > sensorLatchedHotDry.alarmHighTemperature := by
    decide
  ⟨⟨((alarmCheck_silent_hold fmt2 sensorLatched29).1 hlo hhi).1, rfl⟩,
    ((alarmCheck_silent_hold fmt2 sensorLatchedHotDry).2.1 hv rfl).1⟩

/-! ## Lemmas on two calls of `alarmCheck` in a row -/

section RepeatLemmas

variable {α : Type} [Add α] [Sub α] [LT α] [DecidableRel (fun a b : α => a < b)]

/-- On the sensor left by `alarmCheck` the block does not fire. -/
theorem firesHighTemperature_afterCheck (fmt : α → String) (s : HumiditySensor α) :
    (s.alarmCheck fmt).sensor.firesHighTemperature = false := by
  simp only [alarmCheck_eq]
  unfold HumiditySensor.firesHighTemperature HumiditySensor.nextHighTemperatureSent
  dsimp only
  cases hs : s.alarmHighTemperatureSent <;> cases ha : s.alarmHighTemperatureActive <;>
    split_ifs <;> simp_all

/-- On the sensor left by `alarmCheck` the block leaves its latch as it is. -/
theorem nextHighTemperatureSent_afterCheck (fmt : α → String) (s : HumiditySensor α) :
    (s.alarmCheck fmt).sensor.nextHighTemperatureSent = s.nextHighTemperatureSent := by
  simp only [alarmCheck_eq]
  unfold HumiditySensor.nextHighTemperatureSent
  dsimp only
  cases hs : s.alarmHighTemperatureSent <;> cases ha : s.alarmHighTemperatureActive <;>
    split_ifs <;> simp_all

/-- On the sensor left by `alarmCheck` the block does not fire. -/
theorem firesLowTemperature_afterCheck (fmt : α → String) (s : HumiditySensor α) :
    (s.alarmCheck fmt).sensor.firesLowTemperature = false := by
  simp only [alarmCheck_eq]
  unfold HumiditySensor.firesLowTemperature HumiditySensor.nextLowTemperatureSent
  dsimp only
  cases hs : s.alarmLowTemperatureSent <;> cases ha : s.alarmLowTemperatureActive <;>
    split_ifs <;> simp_all

/-- On the sensor left by `alarmCheck` the block leaves its latch as it is. -/
theorem nextLowTemperatureSent_afterCheck (fmt : α → String) (s : HumiditySensor α) :
    (s.alarmCheck fmt).sensor.nextLowTemperatureSent = s.nextLowTemperatureSent := by
  simp only [alarmCheck_eq]
  unfold HumiditySensor.nextLowTemperatureSent
  dsimp only
  cases hs : s.alarmLowTemperatureSent <;> cases ha : s.alarmLowTemperatureActive <;>
    split_ifs <;> simp_all

/-- On the sensor left by `alarmCheck` the block does not fire. -/
theorem firesHighHumidity_afterCheck (fmt : α → String) (s : HumiditySensor α) :
    (s.alarmCheck fmt).sensor.firesHighHumidity = false := by
  simp only [alarmCheck_eq]
  unfold HumiditySensor.firesHighHumidity HumiditySensor.nextHighHumiditySent
  dsimp only
  cases hs : s.alarmHighHumiditySent <;> cases ha : s.alarmHighHumidityActive <;>
    split_ifs <;> simp_all

/-- On the sensor left by `alarmCheck` the block leaves its latch as it is. -/
theorem nextHighHumiditySent_afterCheck (fmt : α → String) (s : HumiditySensor α) :
    (s.alarmCheck fmt).sensor.nextHighHumiditySent = s.nextHighHumiditySent := by
  simp only [alarmCheck_eq]
  unfold HumiditySensor.nextHighHumiditySent
  dsimp only
  cases hs : s.alarmHighHumiditySent <;> cases ha : s.alarmHighHumidityActive <;>
    split_ifs <;> simp_all

/-- On the sensor left by `alarmCheck` the block does not fire. -/
theorem firesLowHumidity_afterCheck (fmt : α → String) (s : HumiditySensor α) :
    (s.alarmCheck fmt).sensor.firesLowHumidity = false := by
  simp only [alarmCheck_eq]
  unfold HumiditySensor.firesLowHumidity HumiditySensor.nextLowHumiditySent
  dsimp only
  cases hs : s.alarmLowHumiditySent <;> cases ha : s.alarmLowHumidityActive <;>
    split_ifs <;> simp_all

/-- On the sensor left by `alarmCheck` the block leaves its latch as it is. -/
theorem nextLowHumiditySent_afterCheck (fmt : α → String) (s : HumiditySensor α) :
    (s.alarmCheck fmt).sensor.nextLowHumiditySent = s.nextLowHumiditySent := by
  simp only [alarmCheck_eq]
  unfold HumiditySensor.nextLowHumiditySent
  dsimp only
  cases hs : s.alarmLowHumiditySent <;> cases ha : s.alarmLowHumidityActive <;>
    split_ifs <;> simp_all

end RepeatLemmas

/-- C19 (de-duplication). Two calls of `alarmCheck` in a row, with nothing in between: the
second call returns false with the text exactly "Alarm", and the sensor after the second call
is the sensor after the first. -/
theorem alarmCheck_twice {α : Type} [Add α] [Sub α] [LT α]
    [DecidableRel (fun a b : α => a < b)] (fmt : α → String) (s : HumiditySensor α) :
    ((s.alarmCheck fmt).sensor.alarmCheck fmt).sendAlarm = false ∧
    ((s.alarmCheck fmt).sensor.alarmCheck fmt).responce = "Alarm" ∧
    ((s.alarmCheck fmt).sensor.alarmCheck fmt).sensor = (s.alarmCheck fmt).sensor := by
  rw [alarmCheck_eq fmt (s.alarmCheck fmt).sensor, firesHighTemperature_afterCheck,
    firesLowTemperature_afterCheck, firesHighHumidity_afterCheck, firesLowHumidity_afterCheck,
    nextHighTemperatureSent_afterCheck, nextLowTemperatureSent_afterCheck,
    nextHighHumiditySent_afterCheck, nextLowHumiditySent_afterCheck]
  refine ⟨rfl, ?_, ?_⟩
  · simp [HumiditySensor.clauseIf]
  · rw [alarmCheck_eq]

/-- The repeated call on an example: on `sensorHotDry` the first call fires two alarms, the
second call returns false with the text "Alarm". -/
theorem alarmCheck_twice_hot_and_dry :
    (sensorHotDry.alarmCheck fmt2).sendAlarm = true ∧
    ((sensorHotDry.alarmCheck fmt2).sensor.alarmCheck fmt2).sendAlarm = false ∧
    ((sensorHotDry.alarmCheck fmt2).sensor.alarmCheck fmt2).responce = "Alarm" := by
  have h1 : sensorHotDry.alarmCheck fmt2 =
      { sendAlarm := true
        responce := "Alarm : High Temperature=31.00(30.00) : Low Humidity=15.00(20.00)"
        sensor := { sensorHotDry with
          alarmHighTemperatureSent := true, alarmLowHumiditySent := true } } := by
    norm_num [HumiditySensor.alarmCheck, HumiditySensor.checkHighTemperature,
      HumiditySensor.checkLowTemperature, HumiditySensor.checkHighHumidity,
      HumiditySensor.checkLowHumidity, sensorHotDry, sensorQ]
    decide
  rw [h1]
  norm_num [HumiditySensor.alarmCheck, HumiditySensor.checkHighTemperature,
    HumiditySensor.checkLowTemperature, HumiditySensor.checkHighHumidity,
    HumiditySensor.checkLowHumidity, sensorHotDry, sensorQ]

/-- C20 (no immediate re-send of an unchanged reading). For a value type in which no value is
below itself, a clock value `now` other than 0 and a timeout above 0: `valueTimeToSend` called
twice in a row with the same reading and the same `now` returns false the second time and
leaves `temperatureSent`, `humiditySent` and `valueSendTime` as the first call left them,
whatever the first call returned and whatever the diff limits are. -/
theorem valueTimeToSend_twice {α : Type} [Add α] [Sub α] [LT α]
    [DecidableRel (fun a b : α => a < b)] (hirr : ∀ a : α, ¬ a < a)
    (ALWAYS_SEND_TIMEOUT now : Int) (s : HumiditySensor α) (temperature humidity : α)
    (hnow : now ≠ 0) (hT : 0 < ALWAYS_SEND_TIMEOUT) :
    ((s.valueTimeToSend ALWAYS_SEND_TIMEOUT now now temperature humidity).2.valueTimeToSend
      ALWAYS_SEND_TIMEOUT now now temperature humidity).1 = false ∧
    ((s.valueTimeToSend ALWAYS_SEND_TIMEOUT now now temperature humidity).2.valueTimeToSend
      ALWAYS_SEND_TIMEOUT now now temperature humidity).2.temperatureSent
      = (s.valueTimeToSend ALWAYS_SEND_TIMEOUT now now temperature humidity).2.temperatureSent ∧
    ((s.valueTimeToSend ALWAYS_SEND_TIMEOUT now now temperature humidity).2.valueTimeToSend
      ALWAYS_SEND_TIMEOUT now now temperature humidity).2.humiditySent
      = (s.valueTimeToSend ALWAYS_SEND_TIMEOUT now now temperature humidity).2.humiditySent ∧
    ((s.valueTimeToSend ALWAYS_SEND_TIMEOUT now now temperature humidity).2.valueTimeToSend
      ALWAYS_SEND_TIMEOUT now now temperature humidity).2.valueSendTime
      = (s.valueTimeToSend ALWAYS_SEND_TIMEOUT now now temperature humidity).2.valueSendTime := by
  have key : ((s.valueTimeToSend ALWAYS_SEND_TIMEOUT now now temperature
      humidity).2.valueTimeToSend ALWAYS_SEND_TIMEOUT now now temperature humidity).1
      = false := by
    rw [← Bool.not_eq_true, valueTimeToSend_fst_iff]
    cases h1 : (s.valueTimeToSend ALWAYS_SEND_TIMEOUT now now temperature humidity).1
    · -- the first call did not send: the second call makes the same tests
      have h2 : (s.valueTimeToSend ALWAYS_SEND_TIMEOUT now now temperature humidity).2
          = s.calibrate temperature humidity := by
        rw [valueTimeToSend_snd, h1]
        rfl
      have h3 := valueTimeToSend_fst_iff ALWAYS_SEND_TIMEOUT now now s temperature humidity
      rw [h1] at h3
      rw [h2]
      intro h
      exact Bool.noConfusion (h3.mpr h)
    · -- the first call sent: the last sent values are the working values and the time is now
      have h2 : (s.valueTimeToSend ALWAYS_SEND_TIMEOUT now now temperature humidity).2
          = HumiditySensor.recordSend now (s.calibrate temperature humidity) := by
        rw [valueTimeToSend_snd, h1]
        rfl
      rw [h2]
      rintro (h | h | h | h | h)
      · rcases h with h | h
        · exact hnow h
        · have h0 : now - now = 0 := sub_self now
          have h4 : ALWAYS_SEND_TIMEOUT ≤ now - now := h
          rw [h0] at h4
          exact absurd hT (not_lt.mpr h4)
      · exact hirr _ h.1
      · exact hirr _ h.1
      · exact hirr _ h.1
      · exact hirr _ h.1
  refine ⟨key, ?_, ?_, ?_⟩
  · rw [valueTimeToSend_snd ALWAYS_SEND_TIMEOUT now now
      (s.valueTimeToSend ALWAYS_SEND_TIMEOUT now now temperature humidity).2, key]
    rfl
  · rw [valueTimeToSend_snd ALWAYS_SEND_TIMEOUT now now
      (s.valueTimeToSend ALWAYS_SEND_TIMEOUT now now temperature humidity).2, key]
    rfl
  · rw [valueTimeToSend_snd ALWAYS_SEND_TIMEOUT now now
      (s.valueTimeToSend ALWAYS_SEND_TIMEOUT now now temperature humidity).2, key]
    rfl

/-- C20, witness: on `sensorNegDiff`, whose temperature diff limit is -1, a reading of 25
degrees at the time 1010 with the timeout 600, asked twice. -/
theorem valueTimeToSend_twice_witness :
    (1010 : Int) ≠ 0 ∧ (0 : Int) < 600 ∧
    ((sensorNegDiff.valueTimeToSend 600 1010 1010 25 50).2.valueTimeToSend
      600 1010 1010 25 50).1 = false :=
  ⟨by decide, by decide,
    (valueTimeToSend_twice (fun a => lt_irrefl a) 600 1010 sensorNegDiff 25 50
      (by decide) (by decide)).1⟩
